import Mathlib

/-!
Verification of the TouchLib sensor array controller (TouchLib.h).

This file is a shallow embedding of the parts of `TLSensors` /
`TLStruct` that the specification talks about:

* the ten-state button state machine (`setState`, `checkForMajorChange`,
  the `processState...` handlers and `processSample`),
* the incremental filter (`updateAvg`, `addSample`) and the
  full measurement cycle (`sample`),
* the randomized measurement schedule (`initScanOrder` / `addChannel`),
* the EEPROM persistence codec (`crcUpdate`, `writeSettingsToEeprom`,
  `readSettingsFromEeprom`).

Modelling conventions:

* C `float` fields are modelled as `Rat`.  Every claim below is about
  which expression the code computes and which fields it writes, never
  about floating-point rounding, so the field-for-field translation of
  the arithmetic expressions is faithful for these purposes.  The
  persistence codec is the exception: it moves floats purely as 32-bit
  patterns (`memcpy` to `uint32_t` plus byte shuffling), so there the
  thresholds are modelled directly as their 32-bit patterns (`Nat`).
* C unsigned integers are `Nat` with explicit `% 2 ^ w` where wraparound
  matters (the 16-bit CRC register, the 32-bit timestamp subtraction).
* The external sample-method callbacks (preSample / sample / postSample)
  are outside the controller core; following their interface contract
  they are modelled as oracles: the per-position raw measurements and,
  for the post-sample hook, the new `value` of each sensor.
* The state-change notification callback is modelled as an appended
  event `(ch, oldState, newState)`; `hasCallback` models
  `buttonStateChangeCallback != NULL`.
-/

/-- The ten button states of `TLStruct::ButtonState` (TouchLib.h:86-95),
in declaration order; `toNat` below gives the numeric enum values. -/
inductive ButtonState where
  | preCalibrating
  | calibrating
  | noisePowerMeasurement
  | released
  | releasedToApproached
  | approached
  | approachedToPressed
  | approachedToReleased
  | pressed
  | pressedToApproached
deriving DecidableEq, Repr, Fintype

/-- Numeric value of each enum constant, as assigned in the source. -/
def ButtonState.toNat : ButtonState → Nat
  | .preCalibrating => 0
  | .calibrating => 1
  | .noisePowerMeasurement => 2
  | .released => 3
  | .releasedToApproached => 4
  | .approached => 5
  | .approachedToPressed => 6
  | .approachedToReleased => 7
  | .pressed => 8
  | .pressedToApproached => 9

/-- The touch polarity (`TLStruct::Direction`). -/
inductive Direction where
  | directionNegative
  | directionPositive
deriving DecidableEq, Repr

/-- One per-sensor record: the fields of `struct TLStruct` that the
controller core reads or writes (sample-method plumbing and the
human-readable label are omitted).  Float fields are `Rat`, unsigned
fields are `Nat`, `raw` (an `int32_t` accumulator) is `Int`,
`sampleType` keeps its C bit-pattern encoding (1 = normal,
2 = inverted, 3 = differential). -/
structure TLStruct where
  direction : Direction
  sampleType : Nat
  releasedToApproachedThreshold : Rat
  approachedToReleasedThreshold : Rat
  approachedToPressedThreshold : Rat
  pressedToApproachedThreshold : Rat
  releasedToApproachedTime : Nat
  approachedToReleasedTime : Nat
  approachedToPressedTime : Nat
  pressedToApproachedTime : Nat
  enableSlewrateLimiter : Bool
  preCalibrationTime : Nat
  calibrationTime : Nat
  approachedTimeout : Nat
  pressedTimeout : Nat
  filterCoeff : Nat
  forceCalibrationWhenReleasingFromApproached : Nat
  forceCalibrationWhenApproachingFromReleased : Nat
  forceCalibrationWhenApproachingFromPressed : Nat
  forceCalibrationWhenPressing : Nat
  setOffsetValueManually : Bool
  disableUpdateIfAnyButtonIsApproached : Bool
  disableUpdateIfAnyButtonIsPressed : Bool
  offsetValue : Rat
  enableTouchStateMachine : Bool
  enableNoisePowerMeasurement : Bool
  raw : Int
  value : Rat
  avg : Rat
  delta : Rat
  maxDelta : Rat
  noisePower : Rat
  buttonState : ButtonState
  buttonIsCalibrating : Bool
  buttonIsReleased : Bool
  buttonIsApproached : Bool
  buttonIsPressed : Bool
  forcedCal : Bool
  counter : Nat
  noiseCounter : Nat
  lastSampledAtTime : Nat
  stateChangedAtTime : Nat
  slewrateFirstSample : Bool
  stateIsBeingChanged : Bool
deriving DecidableEq, Repr

instance : Inhabited TLStruct where
  default :=
    { direction := .directionPositive
      sampleType := 3
      releasedToApproachedThreshold := 0
      approachedToReleasedThreshold := 0
      approachedToPressedThreshold := 0
      pressedToApproachedThreshold := 0
      releasedToApproachedTime := 0
      approachedToReleasedTime := 0
      approachedToPressedTime := 0
      pressedToApproachedTime := 0
      enableSlewrateLimiter := false
      preCalibrationTime := 0
      calibrationTime := 0
      approachedTimeout := 0
      pressedTimeout := 0
      filterCoeff := 0
      forceCalibrationWhenReleasingFromApproached := 0
      forceCalibrationWhenApproachingFromReleased := 0
      forceCalibrationWhenApproachingFromPressed := 0
      forceCalibrationWhenPressing := 0
      setOffsetValueManually := false
      disableUpdateIfAnyButtonIsApproached := false
      disableUpdateIfAnyButtonIsPressed := false
      offsetValue := 0
      enableTouchStateMachine := true
      enableNoisePowerMeasurement := false
      raw := 0
      value := 0
      avg := 0
      delta := 0
      maxDelta := 0
      noisePower := 0
      buttonState := .preCalibrating
      buttonIsCalibrating := false
      buttonIsReleased := false
      buttonIsApproached := false
      buttonIsPressed := false
      forcedCal := false
      counter := 0
      noiseCounter := 0
      lastSampledAtTime := 0
      stateChangedAtTime := 0
      slewrateFirstSample := false
      stateIsBeingChanged := false }

/-- One state-change notification event: sensor index, old state, new
state, as passed to `buttonStateChangeCallback`. -/
abbrev TLEvent := Nat × ButtonState × ButtonState

/-- The `TLSensors` controller object: the sensor array plus the global
flags used by the core.  `data.length` plays the role of `nSensors`
(= `N_SENSORS`).  `events` records the callback invocations and
`hasCallback` models `buttonStateChangeCallback != NULL`. -/
structure TLSensors where
  data : List TLStruct
  anyButtonIsApproached : Bool
  anyButtonIsPressed : Bool
  error : Int
  hasCallback : Bool
  events : List TLEvent
deriving DecidableEq, Repr

namespace TLSensors

/-- Read sensor record `ch` (array access `data[ch]`). -/
def getData (s : TLSensors) (ch : Nat) : TLStruct :=
  s.data.getD ch default

/-- Write sensor record `ch`. -/
def setData (s : TLSensors) (ch : Nat) (d : TLStruct) : TLSensors :=
  { s with data := s.data.set ch d }

/-- TouchLib.h:947-956: a button is calibrating iff its state is at
most `buttonStateNoisePowerMeasurement`. -/
def isCalibratingD (d : TLStruct) : Bool :=
  d.buttonState.toNat ≤ ButtonState.noisePowerMeasurement.toNat

/-- TouchLib.h:965-974: released iff `delta <= approachedToReleasedThreshold`. -/
def isReleasedD (d : TLStruct) : Bool :=
  d.delta ≤ d.approachedToReleasedThreshold

/-- TouchLib.h:982-992: approached iff `delta >= releasedToApproachedThreshold`. -/
def isApproachedD (d : TLStruct) : Bool :=
  d.delta ≥ d.releasedToApproachedThreshold

/-- TouchLib.h:1000-1010: pressed iff `delta >= approachedToPressedThreshold`. -/
def isPressedD (d : TLStruct) : Bool :=
  d.delta ≥ d.approachedToPressedThreshold

/-- TouchLib.h:1162-1190, `checkForMajorChange`: classifies a
transition as major. -/
def checkForMajorChange (oldState newState : ButtonState) : Bool :=
  let majorChange := false
  let majorChange := if newState = .preCalibrating then true else majorChange
  let majorChange :=
    if newState = .calibrating ∧ oldState ≠ .preCalibrating then true else majorChange
  let majorChange :=
    if newState = .released ∧ oldState ≠ .releasedToApproached then true else majorChange
  let majorChange :=
    if newState = .approached ∧ oldState ≠ .approachedToReleased ∧
        oldState ≠ .approachedToPressed then true else majorChange
  let majorChange :=
    if newState = .pressed ∧ oldState ≠ .pressedToApproached then true else majorChange
  majorChange

/-- TouchLib.h:1018-1076, `updateAvg`: update the running average (and,
past calibration, the noise-power estimate), incrementing `counter` /
`noiseCounter` only while strictly below `filterCoeff - 1`.  The two
early returns are the "freeze while a neighbour is approached/pressed"
conditions.  (`filterCoeff - 1` is C unsigned subtraction; it agrees
with `Nat` subtraction for every `filterCoeff >= 1`, and `filterCoeff`
is at least 1 in every configuration the claims range over.) -/
def updateAvg (s : TLSensors) (ch : Nat) : TLSensors :=
  let d := s.getData ch
  if !d.forcedCal ∧ d.buttonState.toNat ≥ ButtonState.released.toNat ∧
      (d.disableUpdateIfAnyButtonIsApproached ∧ s.anyButtonIsApproached) then
    s
  else if !d.forcedCal ∧ d.buttonState.toNat ≥ ButtonState.released.toNat ∧
      (d.disableUpdateIfAnyButtonIsPressed ∧ s.anyButtonIsPressed) then
    s
  else
    let d : TLStruct := { d with avg := (d.counter * d.avg + d.value) / (d.counter + 1) }
    let d : TLStruct :=
      if d.enableNoisePowerMeasurement ∧
          d.buttonState.toNat > ButtonState.calibrating.toNat then
        let sq := d.delta * d.delta
        let d : TLStruct := { d with
          noisePower := (d.noiseCounter * d.noisePower + sq) / (d.noiseCounter + 1) }
        if d.noiseCounter < d.filterCoeff - 1 then
          { d with noiseCounter := d.noiseCounter + 1 }
        else d
      else d
    let d : TLStruct :=
      if d.counter < d.filterCoeff - 1 then { d with counter := d.counter + 1 } else d
    s.setData ch d

/-- The mask selected by the `switch (newState)` in `setState`
(TouchLib.h:1227-1278), as a function of the current state and the
requested new state; `0` when the transition carries no
forced-recalibration mask. -/
def stateMask (d : TLStruct) (newState : ButtonState) : Nat :=
  match newState with
  | .released =>
      if d.buttonState = .approachedToReleased then
        d.forceCalibrationWhenReleasingFromApproached
      else 0
  | .approached =>
      if d.buttonState = .releasedToApproached then
        d.forceCalibrationWhenApproachingFromReleased
      else if d.buttonState = .pressedToApproached then
        d.forceCalibrationWhenApproachingFromPressed
      else 0
  | .pressed => d.forceCalibrationWhenPressing
  | _ => 0

/-- The per-record side effects of the `switch (newState)` in
`setState` (TouchLib.h:1227-1278): entering `buttonStateCalibrating`
resets the filter and noise statistics and clears `forcedCal`; every
other target state leaves the record untouched. -/
def applyStateEntry (d : TLStruct) (newState : ButtonState) : TLStruct :=
  match newState with
  | .calibrating =>
      { d with
        counter := 0
        noiseCounter := 0
        avg := 0
        maxDelta := 0
        noisePower := 0
        forcedCal := false
        offsetValue := if d.setOffsetValueManually then d.offsetValue else 0 }
  | _ => d

/-- Append one notification event (an invocation of
`buttonStateChangeCallback`). -/
def addEvent (s : TLSensors) (e : TLEvent) : TLSensors :=
  { s with events := s.events ++ [e] }

/-- The nested `setState(n, buttonStatePreCalibrating)` performed by
`setForceCalibratingStates` (TouchLib.h:1091) on a sensor other than
the one currently transitioning.  With `newState` fixed to
`buttonStatePreCalibrating` the `switch` is a no-op and the mask stays
`0`, so the body of `setState` (TouchLib.h:1192-1298) reduces to the
guard check, the timestamp reset and the state/notification update. -/
def setStatePreCal (s : TLSensors) (n : Nat) : TLSensors :=
  let d := s.getData n
  if d.stateIsBeingChanged then s
  else if d.buttonState = ButtonState.preCalibrating then s
  else
    let oldState := d.buttonState
    let d := { d with
      stateChangedAtTime := d.lastSampledAtTime
      buttonState := .preCalibrating
      stateIsBeingChanged := false }
    let s := s.setData n d
    if checkForMajorChange oldState .preCalibrating ∧ s.hasCallback then
      s.addEvent (n, oldState, .preCalibrating)
    else s

/-- Set `data[n].forcedCal = true` (TouchLib.h:1093). -/
def setForcedCal (s : TLSensors) (n : Nat) : TLSensors :=
  s.setData n { s.getData n with forcedCal := true }

/-- The loop body of `setForceCalibratingStates` (TouchLib.h:1078-1098)
unrolled over an explicit list of sensor indices, threading the
`chStateChanged` flag and the (possibly overridden) target state. -/
def fanOutAux (mask : Nat) (ch : Nat) :
    List Nat → TLSensors → Bool → ButtonState → TLSensors × Bool × ButtonState
  | [], s, chStateChanged, newState => (s, chStateChanged, newState)
  | n :: rest, s, chStateChanged, newState =>
      if mask.testBit n then
        if n = ch then
          fanOutAux mask ch rest (setForcedCal s n) true .preCalibrating
        else
          fanOutAux mask ch rest (setForcedCal (setStatePreCal s n) n) chStateChanged newState
      else
        fanOutAux mask ch rest s chStateChanged newState

/-- TouchLib.h:1078-1098, `setForceCalibratingStates`: drive every
mask-selected sensor other than `ch` to `buttonStatePreCalibrating`,
set each selected sensor's `forcedCal`, and report whether `ch` itself
was selected (overriding the target state to pre-calibrating). -/
def setForceCalibratingStates (s : TLSensors) (ch : Nat) (mask : Nat)
    (newState : ButtonState) : TLSensors × Bool × ButtonState :=
  fanOutAux mask ch (List.range s.data.length) s false newState

/-- TouchLib.h:1192-1298, `setState`: guarded by `stateIsBeingChanged`
and a no-op when the state is unchanged; otherwise applies the
state-entry side effects, the forced-recalibration fan-out (which may
override the target state), the `stateChangedAtTime` policy (not reset
on the two bounce-back transitions unless the fan-out touched `ch`
itself), and finally the state write plus the major-change
notification. -/
def setState (s : TLSensors) (ch : Nat) (newState : ButtonState) : TLSensors :=
  let d := s.getData ch
  if d.stateIsBeingChanged then s
  else
    let setStateChangedAtTime :=
      ¬((d.buttonState = .approachedToReleased ∧ newState = .approached) ∨
        (d.buttonState = .pressedToApproached ∧ newState = .pressed))
    if d.buttonState = newState then s
    else
      let oldState := d.buttonState
      let mask := stateMask d newState
      let s1 := s.setData ch { applyStateEntry d newState with stateIsBeingChanged := true }
      let r :=
        if mask ≠ 0 then setForceCalibratingStates s1 ch mask newState
        else (s1, false, newState)
      let s2 := r.1
      let setStateChangedAtTime := setStateChangedAtTime ∨ r.2.1 = true
      let newState := r.2.2
      let d2 := s2.getData ch
      let d3 :=
        if setStateChangedAtTime then { d2 with stateChangedAtTime := d2.lastSampledAtTime }
        else d2
      let s3 := s2.setData ch { d3 with buttonState := newState, stateIsBeingChanged := false }
      if checkForMajorChange oldState newState ∧ s3.hasCallback then
        s3.addEvent (ch, oldState, newState)
      else s3

theorem getData_setData_self (s : TLSensors) (ch : Nat) (d : TLStruct)
    (h : ch < s.data.length) : (s.setData ch d).getData ch = d := by
  simp [getData, setData, List.getD_eq_getElem?_getD, List.getElem?_set_self, h]

theorem getData_setData_ne (s : TLSensors) {ch n : Nat} (d : TLStruct)
    (h : n ≠ ch) : (s.setData ch d).getData n = s.getData n := by
  simp [getData, setData, List.getD_eq_getElem?_getD, List.getElem?_set_ne (Ne.symm h)]

theorem length_setData (s : TLSensors) (ch : Nat) (d : TLStruct) :
    (s.setData ch d).data.length = s.data.length := by
  simp [setData]

theorem getData_setData (s : TLSensors) (ch n : Nat) (d : TLStruct) :
    (s.setData ch d).getData n =
      if n = ch ∧ ch < s.data.length then d else s.getData n := by
  by_cases hn : n = ch
  · subst hn
    by_cases hlt : n < s.data.length
    · simp [hlt, getData_setData_self s n d hlt]
    · simp only [hlt, and_false, if_false]
      simp [getData, setData, List.set_eq_of_length_le (Nat.le_of_not_lt hlt)]
  · simp [hn, getData_setData_ne s d hn]

@[simp]
theorem getData_addEvent (s : TLSensors) (e : TLEvent) (m : Nat) :
    (s.addEvent e).getData m = s.getData m := rfl

@[simp]
theorem length_addEvent (s : TLSensors) (e : TLEvent) :
    (s.addEvent e).data.length = s.data.length := rfl

@[simp]
theorem hasCallback_addEvent (s : TLSensors) (e : TLEvent) :
    (s.addEvent e).hasCallback = s.hasCallback := rfl

@[simp]
theorem events_addEvent (s : TLSensors) (e : TLEvent) :
    (s.addEvent e).events = s.events ++ [e] := rfl

@[simp]
theorem hasCallback_setData (s : TLSensors) (ch : Nat) (d : TLStruct) :
    (s.setData ch d).hasCallback = s.hasCallback := rfl

@[simp]
theorem events_setData (s : TLSensors) (ch : Nat) (d : TLStruct) :
    (s.setData ch d).events = s.events := rfl

@[simp]
theorem error_setData (s : TLSensors) (ch : Nat) (d : TLStruct) :
    (s.setData ch d).error = s.error := rfl

@[simp]
theorem anyButtonIsApproached_setData (s : TLSensors) (ch : Nat) (d : TLStruct) :
    (s.setData ch d).anyButtonIsApproached = s.anyButtonIsApproached := rfl

@[simp]
theorem anyButtonIsPressed_setData (s : TLSensors) (ch : Nat) (d : TLStruct) :
    (s.setData ch d).anyButtonIsPressed = s.anyButtonIsPressed := rfl

@[simp]
theorem length_data_setData (s : TLSensors) (ch : Nat) (d : TLStruct) :
    (s.setData ch d).data.length = s.data.length := by
  simp [setData]

theorem length_setStatePreCal (s : TLSensors) (n : Nat) :
    (setStatePreCal s n).data.length = s.data.length := by
  by_cases h1 : (s.getData n).stateIsBeingChanged
  · simp [setStatePreCal, h1]
  by_cases h2 : (s.getData n).buttonState = .preCalibrating
  · simp [setStatePreCal, h1, h2]
  by_cases h4 : checkForMajorChange (s.getData n).buttonState .preCalibrating = true ∧
      s.hasCallback = true
  · simp [setStatePreCal, h1, h2, h4]
  · simp [setStatePreCal, h1, h2, h4]

theorem length_setForcedCal (s : TLSensors) (n : Nat) :
    (setForcedCal s n).data.length = s.data.length := by
  simp [setForcedCal, setData]

theorem getData_setStatePreCal_ne (s : TLSensors) {m n : Nat} (h : m ≠ n) :
    (setStatePreCal s n).getData m = s.getData m := by
  by_cases h1 : (s.getData n).stateIsBeingChanged
  · simp [setStatePreCal, h1]
  by_cases h2 : (s.getData n).buttonState = .preCalibrating
  · simp [setStatePreCal, h1, h2]
  by_cases h4 : checkForMajorChange (s.getData n).buttonState .preCalibrating = true ∧
      s.hasCallback = true
  · simp [setStatePreCal, h1, h2, h4, getData_setData_ne s _ h]
  · simp [setStatePreCal, h1, h2, h4, getData_setData_ne s _ h]

theorem getData_setForcedCal_ne (s : TLSensors) {m n : Nat} (h : m ≠ n) :
    (setForcedCal s n).getData m = s.getData m := by
  simp [setForcedCal, getData_setData_ne s _ h]

/-- Full characterization of the record of the sensor targeted by a
nested `setState(n, buttonStatePreCalibrating)` call. -/
theorem getData_setStatePreCal_self (s : TLSensors) (n : Nat) :
    (setStatePreCal s n).getData n =
      if (s.getData n).stateIsBeingChanged ∨ (s.getData n).buttonState = .preCalibrating ∨
          ¬n < s.data.length then
        s.getData n
      else
        { s.getData n with
          buttonState := .preCalibrating
          stateChangedAtTime := (s.getData n).lastSampledAtTime
          stateIsBeingChanged := false } := by
  by_cases h1 : (s.getData n).stateIsBeingChanged
  · simp [setStatePreCal, h1]
  by_cases h2 : (s.getData n).buttonState = .preCalibrating
  · simp [setStatePreCal, h1, h2]
  by_cases h3 : n < s.data.length
  all_goals
    by_cases h4 : checkForMajorChange (s.getData n).buttonState .preCalibrating = true ∧
        s.hasCallback = true
  all_goals simp [setStatePreCal, h1, h2, h3, h4, getData_setData]

theorem getData_setForcedCal_self (s : TLSensors) (n : Nat) :
    (setForcedCal s n).getData n =
      if n < s.data.length then { s.getData n with forcedCal := true }
      else s.getData n := by
  simp [setForcedCal, getData_setData]

/-- Fields of a sensor record that no nested pre-calibration fan-out
step ever modifies. -/
def untouchedByFanOut (d d' : TLStruct) : Prop :=
  d'.counter = d.counter ∧ d'.noiseCounter = d.noiseCounter ∧
  d'.filterCoeff = d.filterCoeff ∧ d'.lastSampledAtTime = d.lastSampledAtTime ∧
  d'.stateIsBeingChanged = d.stateIsBeingChanged

theorem untouchedByFanOut_refl (d : TLStruct) : untouchedByFanOut d d :=
  ⟨rfl, rfl, rfl, rfl, rfl⟩

theorem untouchedByFanOut_trans {a b c : TLStruct}
    (h1 : untouchedByFanOut a b) (h2 : untouchedByFanOut b c) : untouchedByFanOut a c := by
  obtain ⟨x1, x2, x3, x4, x5⟩ := h1
  obtain ⟨y1, y2, y3, y4, y5⟩ := h2
  exact ⟨y1.trans x1, y2.trans x2, y3.trans x3, y4.trans x4, y5.trans x5⟩

theorem untouchedByFanOut_setStatePreCal (s : TLSensors) (n m : Nat) :
    untouchedByFanOut (s.getData m) ((setStatePreCal s n).getData m) := by
  by_cases h : m = n
  · subst h
    rw [getData_setStatePreCal_self]
    split
    · exact untouchedByFanOut_refl _
    · exact ⟨rfl, rfl, rfl, rfl, by
        rename_i hcond
        push_neg at hcond
        simp [hcond.1]⟩
  · rw [getData_setStatePreCal_ne s h]
    exact untouchedByFanOut_refl _

theorem untouchedByFanOut_setForcedCal (s : TLSensors) (n m : Nat) :
    untouchedByFanOut (s.getData m) ((setForcedCal s n).getData m) := by
  by_cases h : m = n
  · subst h
    rw [getData_setForcedCal_self]
    split
    · exact ⟨rfl, rfl, rfl, rfl, rfl⟩
    · exact untouchedByFanOut_refl _
  · rw [getData_setForcedCal_ne s h]
    exact untouchedByFanOut_refl _

theorem fanOutAux_cons_self (mask ch : Nat) (rest : List Nat) (s : TLSensors)
    (b : Bool) (ns : ButtonState) (h : mask.testBit ch = true) :
    fanOutAux mask ch (ch :: rest) s b ns =
      fanOutAux mask ch rest (setForcedCal s ch) true .preCalibrating := by
  rw [fanOutAux]
  simp [h]

theorem fanOutAux_cons_other (mask ch n : Nat) (rest : List Nat) (s : TLSensors)
    (b : Bool) (ns : ButtonState) (h : mask.testBit n = true) (hn : n ≠ ch) :
    fanOutAux mask ch (n :: rest) s b ns =
      fanOutAux mask ch rest (setForcedCal (setStatePreCal s n) n) b ns := by
  rw [fanOutAux]
  simp [h, hn]

theorem fanOutAux_cons_nobit (mask ch n : Nat) (rest : List Nat) (s : TLSensors)
    (b : Bool) (ns : ButtonState) (h : ¬mask.testBit n = true) :
    fanOutAux mask ch (n :: rest) s b ns = fanOutAux mask ch rest s b ns := by
  rw [fanOutAux]
  simp [h]

theorem fanOutAux_length (mask ch : Nat) (l : List Nat) (s : TLSensors)
    (b : Bool) (ns : ButtonState) :
    (fanOutAux mask ch l s b ns).1.data.length = s.data.length := by
  induction l generalizing s b ns with
  | nil => rfl
  | cons n rest ih =>
    by_cases hbit : mask.testBit n = true
    · by_cases hn : n = ch
      · subst hn
        rw [fanOutAux_cons_self mask n rest s b ns hbit, ih, length_setForcedCal]
      · rw [fanOutAux_cons_other mask ch n rest s b ns hbit hn, ih,
          length_setForcedCal, length_setStatePreCal]
    · rw [fanOutAux_cons_nobit mask ch n rest s b ns hbit]
      exact ih s b ns

theorem hasCallback_setStatePreCal (s : TLSensors) (n : Nat) :
    (setStatePreCal s n).hasCallback = s.hasCallback := by
  by_cases h1 : (s.getData n).stateIsBeingChanged
  · simp [setStatePreCal, h1]
  by_cases h2 : (s.getData n).buttonState = .preCalibrating
  · simp [setStatePreCal, h1, h2]
  by_cases h4 : checkForMajorChange (s.getData n).buttonState .preCalibrating = true ∧
      s.hasCallback = true
  · simp [setStatePreCal, h1, h2, h4]
  · simp [setStatePreCal, h1, h2, h4]

theorem hasCallback_setForcedCal (s : TLSensors) (n : Nat) :
    (setForcedCal s n).hasCallback = s.hasCallback := rfl

theorem fanOutAux_hasCallback (mask ch : Nat) (l : List Nat) (s : TLSensors)
    (b : Bool) (ns : ButtonState) :
    (fanOutAux mask ch l s b ns).1.hasCallback = s.hasCallback := by
  induction l generalizing s b ns with
  | nil => rfl
  | cons n rest ih =>
    by_cases hbit : mask.testBit n = true
    · by_cases hn : n = ch
      · subst hn
        rw [fanOutAux_cons_self mask n rest s b ns hbit, ih, hasCallback_setForcedCal]
      · rw [fanOutAux_cons_other mask ch n rest s b ns hbit hn, ih,
          hasCallback_setForcedCal, hasCallback_setStatePreCal]
    · rw [fanOutAux_cons_nobit mask ch n rest s b ns hbit]
      exact ih s b ns

theorem fanOutAux_untouched (mask ch : Nat) (l : List Nat) (s : TLSensors)
    (b : Bool) (ns : ButtonState) (m : Nat) :
    untouchedByFanOut (s.getData m) ((fanOutAux mask ch l s b ns).1.getData m) := by
  induction l generalizing s b ns with
  | nil => exact untouchedByFanOut_refl _
  | cons n rest ih =>
    by_cases hbit : mask.testBit n = true
    · by_cases hn : n = ch
      · subst hn
        rw [fanOutAux_cons_self mask n rest s b ns hbit]
        exact untouchedByFanOut_trans (untouchedByFanOut_setForcedCal s n m) (ih _ _ _)
      · rw [fanOutAux_cons_other mask ch n rest s b ns hbit hn]
        exact untouchedByFanOut_trans
          (untouchedByFanOut_trans (untouchedByFanOut_setStatePreCal s n m)
            (untouchedByFanOut_setForcedCal _ n m)) (ih _ _ _)
    · rw [fanOutAux_cons_nobit mask ch n rest s b ns hbit]
      exact ih s b ns

theorem fanOutAux_getData_not_mem (mask ch : Nat) (l : List Nat) (s : TLSensors)
    (b : Bool) (ns : ButtonState) (m : Nat) (hm : m ∉ l) :
    (fanOutAux mask ch l s b ns).1.getData m = s.getData m := by
  induction l generalizing s b ns with
  | nil => rfl
  | cons n rest ih =>
    have hmn : m ≠ n := fun h => hm (h ▸ List.mem_cons_self n rest)
    have hmr : m ∉ rest := fun h => hm (List.mem_cons_of_mem n h)
    by_cases hbit : mask.testBit n = true
    · by_cases hn : n = ch
      · subst hn
        rw [fanOutAux_cons_self mask n rest s b ns hbit, ih _ _ _ hmr,
          getData_setForcedCal_ne _ hmn]
      · rw [fanOutAux_cons_other mask ch n rest s b ns hbit hn, ih _ _ _ hmr,
          getData_setForcedCal_ne _ hmn, getData_setStatePreCal_ne _ hmn]
    · rw [fanOutAux_cons_nobit mask ch n rest s b ns hbit]
      exact ih s b ns hmr

/-- Through the fan-out, the record of the sensor `ch` that initiated
the transition changes at most in its `forcedCal` flag (the loop never
recurses into `ch`). -/
theorem fanOutAux_getData_ch (mask ch : Nat) (l : List Nat) (s : TLSensors)
    (b : Bool) (ns : ButtonState) (h : ch < s.data.length) :
    (fanOutAux mask ch l s b ns).1.getData ch =
      if mask.testBit ch ∧ ch ∈ l then { s.getData ch with forcedCal := true }
      else s.getData ch := by
  induction l generalizing s b ns with
  | nil => simp [fanOutAux]
  | cons n rest ih =>
    have hmem : ch ∈ n :: rest ↔ (ch = n ∨ ch ∈ rest) := List.mem_cons
    by_cases hbit : mask.testBit n = true
    · by_cases hn : n = ch
      · subst hn
        rw [fanOutAux_cons_self mask n rest s b ns hbit]
        have h2 : n < (setForcedCal s n).data.length := by rwa [length_setForcedCal]
        rw [ih _ _ _ h2, getData_setForcedCal_self, if_pos h]
        by_cases hrest : mask.testBit n = true ∧ n ∈ rest
        · simp [hrest, hbit]
        · simp [hrest, hbit]
      · rw [fanOutAux_cons_other mask ch n rest s b ns hbit hn]
        have h2 : ch < (setForcedCal (setStatePreCal s n) n).data.length := by
          rw [length_setForcedCal, length_setStatePreCal]
          exact h
        rw [ih _ _ _ h2]
        have hne : ch ≠ n := fun hh => hn hh.symm
        rw [getData_setForcedCal_ne _ hne, getData_setStatePreCal_ne _ hne]
        by_cases hrest : mask.testBit ch = true ∧ ch ∈ rest
        · rw [if_pos hrest, if_pos ⟨hrest.1, List.mem_cons_of_mem n hrest.2⟩]
        · rw [if_neg hrest, if_neg]
          rintro ⟨hb1, hb2⟩
          rcases hmem.mp hb2 with hc | hc
          · exact hne hc
          · exact hrest ⟨hb1, hc⟩
    · rw [fanOutAux_cons_nobit mask ch n rest s b ns hbit, ih s b ns h]
      by_cases hrest : mask.testBit ch = true ∧ ch ∈ rest
      · rw [if_pos hrest, if_pos ⟨hrest.1, List.mem_cons_of_mem n hrest.2⟩]
      · rw [if_neg hrest, if_neg]
        rintro ⟨hb1, hb2⟩
        rcases hmem.mp hb2 with hc | hc
        · exact hbit (hc ▸ hb1)
        · exact hrest ⟨hb1, hc⟩

/-- The `chStateChanged` flag returned by the fan-out is set exactly
when the mask selects the transitioning sensor itself. -/
theorem fanOutAux_chStateChanged (mask ch : Nat) (l : List Nat) (s : TLSensors)
    (b : Bool) (ns : ButtonState) :
    ((fanOutAux mask ch l s b ns).2.1 = true) ↔
      (b = true ∨ (mask.testBit ch = true ∧ ch ∈ l)) := by
  induction l generalizing s b ns with
  | nil => simp [fanOutAux]
  | cons n rest ih =>
    have hmem : ch ∈ n :: rest ↔ (ch = n ∨ ch ∈ rest) := List.mem_cons
    by_cases hbit : mask.testBit n = true
    · by_cases hn : n = ch
      · subst hn
        rw [fanOutAux_cons_self mask n rest s b ns hbit, ih]
        simp [hbit]
      · rw [fanOutAux_cons_other mask ch n rest s b ns hbit hn, ih]
        constructor
        · rintro (hb | ⟨h1, h2⟩)
          · exact Or.inl hb
          · exact Or.inr ⟨h1, List.mem_cons_of_mem n h2⟩
        · rintro (hb | ⟨h1, h2⟩)
          · exact Or.inl hb
          · rcases hmem.mp h2 with hc | hc
            · exact absurd hc.symm hn
            · exact Or.inr ⟨h1, hc⟩
    · rw [fanOutAux_cons_nobit mask ch n rest s b ns hbit, ih]
      constructor
      · rintro (hb | ⟨h1, h2⟩)
        · exact Or.inl hb
        · exact Or.inr ⟨h1, List.mem_cons_of_mem n h2⟩
      · rintro (hb | ⟨h1, h2⟩)
        · exact Or.inl hb
        · rcases hmem.mp h2 with hc | hc
          · exact absurd (hc ▸ h1) (by simpa [hc] using hbit)
          · exact Or.inr ⟨h1, hc⟩

/-- Equation form of the previous lemma, convenient for rewriting. -/
theorem fanOutAux_chStateChanged_eq (mask ch : Nat) (l : List Nat) (s : TLSensors)
    (b : Bool) (ns : ButtonState) :
    (fanOutAux mask ch l s b ns).2.1 = (b || (mask.testBit ch && decide (ch ∈ l))) := by
  rw [Bool.eq_iff_iff, fanOutAux_chStateChanged]
  simp [Bool.or_eq_true, Bool.and_eq_true, decide_eq_true_eq]

/-- The target state returned by the fan-out: overridden to
pre-calibrating exactly when the mask selects `ch` itself. -/
theorem fanOutAux_newState (mask ch : Nat) (l : List Nat) (s : TLSensors)
    (b : Bool) (ns : ButtonState) :
    (fanOutAux mask ch l s b ns).2.2 =
      if mask.testBit ch ∧ ch ∈ l then .preCalibrating else ns := by
  induction l generalizing s b ns with
  | nil => simp [fanOutAux]
  | cons n rest ih =>
    have hmem : ch ∈ n :: rest ↔ (ch = n ∨ ch ∈ rest) := List.mem_cons
    by_cases hbit : mask.testBit n = true
    · by_cases hn : n = ch
      · subst hn
        rw [fanOutAux_cons_self mask n rest s b ns hbit, ih]
        split <;> simp [hbit]
      · rw [fanOutAux_cons_other mask ch n rest s b ns hbit hn, ih]
        by_cases hrest : mask.testBit ch = true ∧ ch ∈ rest
        · rw [if_pos hrest, if_pos ⟨hrest.1, List.mem_cons_of_mem n hrest.2⟩]
        · rw [if_neg hrest, if_neg]
          rintro ⟨h1, h2⟩
          rcases hmem.mp h2 with hc | hc
          · exact hn hc.symm
          · exact hrest ⟨h1, hc⟩
    · rw [fanOutAux_cons_nobit mask ch n rest s b ns hbit, ih]
      by_cases hrest : mask.testBit ch = true ∧ ch ∈ rest
      · rw [if_pos hrest, if_pos ⟨hrest.1, List.mem_cons_of_mem n hrest.2⟩]
      · rw [if_neg hrest, if_neg]
        rintro ⟨h1, h2⟩
        rcases hmem.mp h2 with hc | hc
        · exact hbit (hc ▸ h1)
        · exact hrest ⟨h1, hc⟩


/-- Every sensor selected by the mask, other than the transitioning one,
ends the fan-out in the pre-calibrating state with its forced-calibration
flag set. -/
theorem fanOutAux_getData_mem (mask ch : Nat) (l : List Nat) (s : TLSensors)
    (b : Bool) (ns : ButtonState) (hnd : l.Nodup) (n : Nat) (hmem : n ∈ l)
    (hbitn : mask.testBit n = true) (hn : n ≠ ch)
    (hguard : (s.getData n).stateIsBeingChanged = false) (hlen : n < s.data.length) :
    ((fanOutAux mask ch l s b ns).1.getData n).buttonState = .preCalibrating ∧
    ((fanOutAux mask ch l s b ns).1.getData n).forcedCal = true := by
  induction l generalizing s b ns with
  | nil => exact absurd hmem (List.not_mem_nil n)
  | cons m rest ih =>
    have hndr : rest.Nodup := (List.nodup_cons.mp hnd).2
    have hmr : m ∉ rest := (List.nodup_cons.mp hnd).1
    by_cases hmn : m = n
    · subst hmn
      rw [fanOutAux_cons_other mask ch m rest s b ns hbitn hn]
      have hnotmem : m ∉ rest := hmr
      rw [fanOutAux_getData_not_mem mask ch rest _ b ns m hnotmem]
      have hfc := getData_setForcedCal_self (setStatePreCal s m) m
      have hlen2 : m < (setStatePreCal s m).data.length := by
        rwa [length_setStatePreCal]
      rw [hfc, if_pos hlen2]
      have hpc := getData_setStatePreCal_self s m
      constructor
      · show ((setStatePreCal s m).getData m).buttonState = _
        rw [hpc]
        split
        · rename_i hcond
          rcases hcond with hcond | hcond | hcond
          · exact absurd hcond (by simp [hguard])
          · exact hcond
          · exact absurd hlen hcond
        · rfl
      · rfl
    · have hmemr : n ∈ rest := by
        rcases List.mem_cons.mp hmem with hc | hc
        · exact absurd hc.symm hmn
        · exact hc
      have hnm : n ≠ m := fun hh => hmn hh.symm
      by_cases hbitm : mask.testBit m = true
      · by_cases hmc : m = ch
        · subst hmc
          rw [fanOutAux_cons_self mask m rest s b ns hbitm]
          exact ih _ _ _ hndr hmemr
            (by rw [getData_setForcedCal_ne _ hnm]; exact hguard)
            (by rwa [length_setForcedCal])
        · rw [fanOutAux_cons_other mask ch m rest s b ns hbitm hmc]
          exact ih _ _ _ hndr hmemr
            (by rw [getData_setForcedCal_ne _ hnm, getData_setStatePreCal_ne _ hnm]
                exact hguard)
            (by rwa [length_setForcedCal, length_setStatePreCal])
      · rw [fanOutAux_cons_nobit mask ch m rest s b ns hbitm]
        exact ih s b ns hndr hmemr hguard hlen


@[simp]
theorem applyStateEntry_stateChangedAtTime (d : TLStruct) (ns : ButtonState) :
    (applyStateEntry d ns).stateChangedAtTime = d.stateChangedAtTime := by
  cases ns <;> rfl

@[simp]
theorem applyStateEntry_lastSampledAtTime (d : TLStruct) (ns : ButtonState) :
    (applyStateEntry d ns).lastSampledAtTime = d.lastSampledAtTime := by
  cases ns <;> rfl

@[simp]
theorem applyStateEntry_buttonState (d : TLStruct) (ns : ButtonState) :
    (applyStateEntry d ns).buttonState = d.buttonState := by
  cases ns <;> rfl

@[simp]
theorem applyStateEntry_filterCoeff (d : TLStruct) (ns : ButtonState) :
    (applyStateEntry d ns).filterCoeff = d.filterCoeff := by
  cases ns <;> rfl

theorem applyStateEntry_counter (d : TLStruct) (ns : ButtonState) :
    (applyStateEntry d ns).counter = if ns = .calibrating then 0 else d.counter := by
  cases ns <;> rfl

theorem applyStateEntry_noiseCounter (d : TLStruct) (ns : ButtonState) :
    (applyStateEntry d ns).noiseCounter = if ns = .calibrating then 0 else d.noiseCounter := by
  cases ns <;> rfl

/-- Shape of the transitioning sensor's record after `setState` when the
transition carries no forced-recalibration mask. -/
theorem setState_getData_self_mask0 (s : TLSensors) (ch : Nat) (ns : ButtonState)
    (hch : ch < s.data.length)
    (hguard : (s.getData ch).stateIsBeingChanged = false)
    (hne : ¬(s.getData ch).buttonState = ns)
    (hm : stateMask (s.getData ch) ns = 0) :
    (setState s ch ns).getData ch =
      { applyStateEntry (s.getData ch) ns with
        stateChangedAtTime :=
          if ((s.getData ch).buttonState = .approachedToReleased ∧ ns = .approached) ∨
              ((s.getData ch).buttonState = .pressedToApproached ∧ ns = .pressed) then
            (s.getData ch).stateChangedAtTime
          else (s.getData ch).lastSampledAtTime
        buttonState := ns
        stateIsBeingChanged := false } := by
  by_cases hex : ((s.getData ch).buttonState = .approachedToReleased ∧ ns = .approached) ∨
      ((s.getData ch).buttonState = .pressedToApproached ∧ ns = .pressed)
  · simp only [setState, hguard, hm, hne, Bool.false_eq_true, if_false, hex, if_true,
      ne_eq, not_true_eq_false, false_or]
    by_cases hcb : checkForMajorChange (s.getData ch).buttonState ns = true ∧ s.hasCallback = true
    · simp [hcb, getData_setData, hch]
    · simp [hcb, getData_setData, hch]
  · simp only [setState, hguard, hm, hne, Bool.false_eq_true, if_false, hex, if_true,
      ne_eq, not_false_eq_true, true_or]
    by_cases hcb : checkForMajorChange (s.getData ch).buttonState ns = true ∧ s.hasCallback = true
    · simp [hcb, getData_setData, hch]
    · simp [hcb, getData_setData, hch]


set_option maxHeartbeats 1600000 in
/-- Shape of the transitioning sensor's record after `setState` when the
transition carries a non-zero forced-recalibration mask. -/
theorem setState_getData_self_mask (s : TLSensors) (ch : Nat) (ns : ButtonState)
    (hch : ch < s.data.length)
    (hguard : (s.getData ch).stateIsBeingChanged = false)
    (hne : ¬(s.getData ch).buttonState = ns)
    (hm : ¬stateMask (s.getData ch) ns = 0) :
    (setState s ch ns).getData ch =
      (if (stateMask (s.getData ch) ns).testBit ch = true then
        { applyStateEntry (s.getData ch) ns with
          forcedCal := true
          stateChangedAtTime := (s.getData ch).lastSampledAtTime
          buttonState := .preCalibrating
          stateIsBeingChanged := false }
      else
        { applyStateEntry (s.getData ch) ns with
          stateChangedAtTime :=
            if ((s.getData ch).buttonState = .approachedToReleased ∧ ns = .approached) ∨
                ((s.getData ch).buttonState = .pressedToApproached ∧ ns = .pressed) then
              (s.getData ch).stateChangedAtTime
            else (s.getData ch).lastSampledAtTime
          buttonState := ns
          stateIsBeingChanged := false }) := by
  simp only [setState, hguard, hne, Bool.false_eq_true, if_false, hm, ite_not,
    setForceCalibratingStates]
  generalize hT : s.setData ch
      { applyStateEntry (s.getData ch) ns with stateIsBeingChanged := true } = s1
  have hlen1 : s1.data.length = s.data.length := by
    rw [← hT]
    simp
  have hch2 : ch < s1.data.length := hlen1 ▸ hch
  have hrange2 : ch ∈ List.range s1.data.length := List.mem_range.mpr hch2
  have hgd : s1.getData ch =
      { applyStateEntry (s.getData ch) ns with stateIsBeingChanged := true } := by
    rw [← hT]
    exact getData_setData_self _ _ _ hch
  have hcall1 : s1.hasCallback = s.hasCallback := by
    rw [← hT]
    rfl
  rw [fanOutAux_getData_ch _ _ _ _ _ _ hch2, fanOutAux_newState, fanOutAux_chStateChanged_eq]
  simp only [hasCallback_setData, fanOutAux_hasCallback, hcall1]
  by_cases hbit : (stateMask (s.getData ch) ns).testBit ch = true
  · have hcnd : (stateMask (s.getData ch) ns).testBit ch = true ∧
        ch ∈ List.range s1.data.length := ⟨hbit, hrange2⟩
    have hb1 : ((stateMask (s.getData ch) ns).testBit ch &&
        decide (ch ∈ List.range s1.data.length)) = true :=
      by rw [hbit, decide_eq_true hrange2]; rfl
    simp only [if_pos hcnd, if_pos hbit, Bool.false_or]
    have hor : (¬(((s.getData ch).buttonState = .approachedToReleased ∧ ns = .approached) ∨
        ((s.getData ch).buttonState = .pressedToApproached ∧ ns = .pressed))) ∨
        ((stateMask (s.getData ch) ns).testBit ch &&
          decide (ch ∈ List.range s1.data.length)) = true := Or.inr hb1
    simp only [if_pos hor]
    rw [hgd]
    by_cases hcb : checkForMajorChange (s.getData ch).buttonState .preCalibrating = true ∧
        s.hasCallback = true
    · simp only [if_pos hcb]
      simp [getData_setData, hch, hlen1, fanOutAux_length]
    · simp only [if_neg hcb]
      simp [getData_setData, hch, hlen1, fanOutAux_length]
  · have hcnd : ¬((stateMask (s.getData ch) ns).testBit ch = true ∧
        ch ∈ List.range s1.data.length) := fun hh => hbit hh.1
    have hbit2 : (stateMask (s.getData ch) ns).testBit ch = false :=
      Bool.eq_false_iff.mpr hbit
    have hb0 : ((stateMask (s.getData ch) ns).testBit ch &&
        decide (ch ∈ List.range s1.data.length)) = false := by
      rw [hbit2]
      exact Bool.false_and _
    simp only [if_neg hcnd, if_neg hbit, Bool.false_or]
    rw [hgd]
    by_cases hex : ((s.getData ch).buttonState = .approachedToReleased ∧ ns = .approached) ∨
        ((s.getData ch).buttonState = .pressedToApproached ∧ ns = .pressed)
    · have hor : ¬((¬(((s.getData ch).buttonState = .approachedToReleased ∧
          ns = .approached) ∨ ((s.getData ch).buttonState = .pressedToApproached ∧
          ns = .pressed))) ∨ ((stateMask (s.getData ch) ns).testBit ch &&
            decide (ch ∈ List.range s1.data.length)) = true) := by
        rintro (hh | hh)
        · exact hh hex
        · rw [hb0] at hh
          exact absurd hh (by simp)
      simp only [if_neg hor, if_pos hex]
      by_cases hcb : checkForMajorChange (s.getData ch).buttonState ns = true ∧
          s.hasCallback = true
      · simp only [if_pos hcb]
        simp [getData_setData, hch, hlen1, fanOutAux_length]
      · simp only [if_neg hcb]
        simp [getData_setData, hch, hlen1, fanOutAux_length]
    · have hor : (¬(((s.getData ch).buttonState = .approachedToReleased ∧
          ns = .approached) ∨ ((s.getData ch).buttonState = .pressedToApproached ∧
          ns = .pressed))) ∨ ((stateMask (s.getData ch) ns).testBit ch &&
            decide (ch ∈ List.range s1.data.length)) = true := Or.inl hex
      simp only [if_pos hor, if_neg hex]
      by_cases hcb : checkForMajorChange (s.getData ch).buttonState ns = true ∧
          s.hasCallback = true
      · simp only [if_pos hcb]
        simp [getData_setData, hch, hlen1, fanOutAux_length]
      · simp only [if_neg hcb]
        simp [getData_setData, hch, hlen1, fanOutAux_length]


/-- A sensor other than the one passed to `setState` is touched only by
the fan-out, so its filter statistics and timestamps survive unchanged. -/
theorem setState_getData_other_untouched (s : TLSensors) (ch : Nat) (ns : ButtonState)
    (m : Nat) (hne_m : m ≠ ch) :
    untouchedByFanOut (s.getData m) ((setState s ch ns).getData m) := by
  by_cases hguard : (s.getData ch).stateIsBeingChanged = true
  · simp only [setState, hguard, if_true]
    exact untouchedByFanOut_refl _
  by_cases heq : (s.getData ch).buttonState = ns
  · simp only [setState, hguard, Bool.false_eq_true, if_false, if_pos heq]
    exact untouchedByFanOut_refl _
  simp only [setState, hguard, heq, Bool.false_eq_true, if_false, if_neg heq,
    setForceCalibratingStates]
  generalize hT : s.setData ch
      { applyStateEntry (s.getData ch) ns with stateIsBeingChanged := true } = s1
  have hgm : s1.getData m = s.getData m := by
    rw [← hT]
    exact getData_setData_ne s _ hne_m
  by_cases hm0 : stateMask (s.getData ch) ns = 0
  · have hmc : ¬stateMask (s.getData ch) ns ≠ 0 := fun hh => hh hm0
    simp only [if_neg hmc]
    rw [apply_ite (fun t : TLSensors => t.getData m)]
    simp only [getData_addEvent, getData_setData_ne _ _ hne_m, ite_self]
    rw [hgm]
    exact untouchedByFanOut_refl _
  · have hmc : stateMask (s.getData ch) ns ≠ 0 := hm0
    simp only [if_pos hmc]
    have h1 := fanOutAux_untouched (stateMask (s.getData ch) ns) ch
      (List.range s1.data.length) s1 false ns m
    rw [hgm] at h1
    rw [apply_ite (fun t : TLSensors => t.getData m)]
    simp only [getData_addEvent, getData_setData_ne _ _ hne_m, ite_self]
    exact h1


/-- Notification behaviour of `setState` on a transition without
forced-recalibration fan-out: the callback fires exactly on major
changes. -/
theorem setState_events_mask0 (s : TLSensors) (ch : Nat) (ns : ButtonState)
    (hguard : (s.getData ch).stateIsBeingChanged = false)
    (hne : ¬(s.getData ch).buttonState = ns)
    (hm0 : stateMask (s.getData ch) ns = 0) :
    (setState s ch ns).events = s.events ++
      (if checkForMajorChange (s.getData ch).buttonState ns = true ∧ s.hasCallback = true
       then [(ch, (s.getData ch).buttonState, ns)] else []) := by
  simp only [setState, hguard, Bool.false_eq_true, if_false, if_neg hne,
    setForceCalibratingStates]
  generalize hT : s.setData ch
      { applyStateEntry (s.getData ch) ns with stateIsBeingChanged := true } = s1
  have hcall1 : s1.hasCallback = s.hasCallback := by
    rw [← hT]
    rfl
  have hev1 : s1.events = s.events := by
    rw [← hT]
    rfl
  have hmc : ¬stateMask (s.getData ch) ns ≠ 0 := fun hh => hh hm0
  simp only [if_neg hmc, hasCallback_setData, hcall1]
  by_cases hcb : checkForMajorChange (s.getData ch).buttonState ns = true ∧
      s.hasCallback = true
  · simp only [if_pos hcb, events_addEvent, events_setData, hev1]
  · simp only [if_neg hcb, events_setData, hev1, List.append_nil]

/-- Effect of the fan-out performed by `setState` on a mask-selected
sensor other than the transitioning one. -/
theorem setState_fanOut_other (s : TLSensors) (ch : Nat) (ns : ButtonState) (n : Nat)
    (hch : ch < s.data.length) (hn : n ≠ ch) (hnlen : n < s.data.length)
    (hbitn : (stateMask (s.getData ch) ns).testBit n = true)
    (hguards : ∀ k, k < s.data.length → (s.getData k).stateIsBeingChanged = false)
    (hne : ¬(s.getData ch).buttonState = ns)
    (hm : ¬stateMask (s.getData ch) ns = 0) :
    ((setState s ch ns).getData n).buttonState = .preCalibrating ∧
    ((setState s ch ns).getData n).forcedCal = true := by
  simp only [setState, hguards ch hch, Bool.false_eq_true, if_false, if_neg hne,
    setForceCalibratingStates]
  generalize hT : s.setData ch
      { applyStateEntry (s.getData ch) ns with stateIsBeingChanged := true } = s1
  have hlen1 : s1.data.length = s.data.length := by
    rw [← hT]
    simp
  have hgn : s1.getData n = s.getData n := by
    rw [← hT]
    exact getData_setData_ne s _ hn
  have hmc : stateMask (s.getData ch) ns ≠ 0 := hm
  simp only [if_pos hmc]
  rw [apply_ite (fun t : TLSensors => t.getData n)]
  simp only [getData_addEvent, getData_setData_ne _ _ hn, ite_self]
  exact fanOutAux_getData_mem (stateMask (s.getData ch) ns) ch
    (List.range s1.data.length) s1 false ns (List.nodup_range _) n
    (List.mem_range.mpr (hlen1 ▸ hnlen)) hbitn hn
    (by rw [hgn]; exact hguards n hnlen) (hlen1 ▸ hnlen)


/-- C10: setState is a no-op on an unchanged state: requesting the
sensor's current state modifies nothing at all — no field of any sensor
record, no fan-out, no notification. -/
theorem setState_unchanged_noop (s : TLSensors) (ch : Nat) :
    setState s ch ((s.getData ch).buttonState) = s := by
  simp only [setState]
  split
  · rfl
  · simp

/-- C7: every state transition performed by `setState` resets the
sensor's `stateChangedAtTime` to `lastSampledAtTime`, except the two
reverting transitions ApproachedToReleased to Approached and
PressedToApproached to Pressed (judged on the state actually stored),
which leave it unchanged. -/
theorem setState_timestamp_policy (s : TLSensors) (ch : Nat) (ns : ButtonState)
    (hch : ch < s.data.length)
    (hguard : (s.getData ch).stateIsBeingChanged = false)
    (hne : ¬(s.getData ch).buttonState = ns) :
    ((((s.getData ch).buttonState = .approachedToReleased ∧
        ((setState s ch ns).getData ch).buttonState = .approached) ∨
      ((s.getData ch).buttonState = .pressedToApproached ∧
        ((setState s ch ns).getData ch).buttonState = .pressed)) →
      ((setState s ch ns).getData ch).stateChangedAtTime =
        (s.getData ch).stateChangedAtTime) ∧
    ((¬(((s.getData ch).buttonState = .approachedToReleased ∧
        ((setState s ch ns).getData ch).buttonState = .approached) ∨
      ((s.getData ch).buttonState = .pressedToApproached ∧
        ((setState s ch ns).getData ch).buttonState = .pressed))) →
      ((setState s ch ns).getData ch).stateChangedAtTime =
        (s.getData ch).lastSampledAtTime) := by
  by_cases hm : stateMask (s.getData ch) ns = 0
  · rw [setState_getData_self_mask0 s ch ns hch hguard hne hm]
    dsimp only
    constructor
    · intro hcond
      rw [if_pos hcond]
    · intro hcond
      rw [if_neg hcond]
  · rw [setState_getData_self_mask s ch ns hch hguard hne hm]
    by_cases hbit : (stateMask (s.getData ch) ns).testBit ch = true
    · simp only [if_pos hbit]
      constructor
      · intro hcond
        rcases hcond with ⟨h1, h2⟩ | ⟨h1, h2⟩ <;> exact absurd h2 (by simp_all)
      · intro _
        simp
    · simp only [if_neg hbit]
      constructor
      · intro hcond
        rw [if_pos hcond]
      · intro hcond
        rw [if_neg hcond]

/-- C8: a transition carrying a non-zero force-calibration mask drives
every mask-selected sensor other than the transitioning one to
PreCalibrating with `forcedCal` set, and if the transitioning sensor's
own bit is set, its target state is overridden to PreCalibrating (again
with `forcedCal` set). -/
theorem setState_forceCalibration_fanOut (s : TLSensors) (ch : Nat) (ns : ButtonState)
    (hch : ch < s.data.length)
    (hguards : ∀ k, k < s.data.length → (s.getData k).stateIsBeingChanged = false)
    (hne : ¬(s.getData ch).buttonState = ns)
    (hm : ¬stateMask (s.getData ch) ns = 0) :
    (∀ n, n < s.data.length → n ≠ ch → (stateMask (s.getData ch) ns).testBit n = true →
      ((setState s ch ns).getData n).buttonState = .preCalibrating ∧
      ((setState s ch ns).getData n).forcedCal = true) ∧
    ((stateMask (s.getData ch) ns).testBit ch = true →
      ((setState s ch ns).getData ch).buttonState = .preCalibrating ∧
      ((setState s ch ns).getData ch).forcedCal = true) := by
  constructor
  · intro n h1 h2 h3
    exact setState_fanOut_other s ch ns n hch h2 h1 h3 hguards hne hm
  · intro hbit
    rw [setState_getData_self_mask s ch ns hch (hguards ch hch) hne hm]
    simp only [if_pos hbit]
    simp

/-- C9: the state-change callback fires exactly on transitions the code
classifies as major — entering PreCalibrating from anywhere; Calibrating
from other than PreCalibrating; Released from other than
ReleasedToApproached; Approached from other than its two hold
predecessors; Pressed from other than PressedToApproached — and never
otherwise. -/
theorem majorChange_notification :
    (∀ oldState newState : ButtonState,
      (checkForMajorChange oldState newState = true) ↔
        (newState = .preCalibrating ∨
         (newState = .calibrating ∧ oldState ≠ .preCalibrating) ∨
         (newState = .released ∧ oldState ≠ .releasedToApproached) ∨
         (newState = .approached ∧ oldState ≠ .approachedToReleased ∧
           oldState ≠ .approachedToPressed) ∨
         (newState = .pressed ∧ oldState ≠ .pressedToApproached))) ∧
    (∀ (s : TLSensors) (ch : Nat) (ns : ButtonState),
      (s.getData ch).stateIsBeingChanged = false →
      ¬(s.getData ch).buttonState = ns →
      stateMask (s.getData ch) ns = 0 →
      (setState s ch ns).events = s.events ++
        (if checkForMajorChange (s.getData ch).buttonState ns = true ∧ s.hasCallback = true
         then [(ch, (s.getData ch).buttonState, ns)] else [])) :=
  ⟨by decide, fun s ch ns h1 h2 h3 => setState_events_mask0 s ch ns h1 h2 h3⟩


/-- Unsigned 32-bit elapsed-time computation
`lastSampledAtTime - stateChangedAtTime` (C unsigned subtraction on
`unsigned long`, wraparound-tolerant). -/
def elapsed (t1 t2 : Nat) : Nat :=
  (t1 % 2 ^ 32 + 2 ^ 32 - t2 % 2 ^ 32) % 2 ^ 32

/-- TouchLib.h:1519-1532, the delta stage of `processSample`: delta is
forced to zero while `buttonState < buttonStateNoisePowerMeasurement`
(average not yet known); otherwise it is `value - avg` (sign flipped
for `directionNegative`) and `maxDelta` tracks the running maximum. -/
def computeDelta (d : TLStruct) : TLStruct :=
  if d.buttonState.toNat < ButtonState.noisePowerMeasurement.toNat then
    { d with delta := 0 }
  else
    let d : TLStruct :=
      { d with delta := if d.direction = .directionNegative then d.avg - d.value
                        else d.value - d.avg }
    if d.maxDelta < d.delta then { d with maxDelta := d.delta } else d

/-- TouchLib.h:1323-1332, `processStatePreCalibrating`. -/
def processStatePreCalibrating (s : TLSensors) (ch : Nat) : TLSensors :=
  let d := s.getData ch
  if elapsed d.lastSampledAtTime d.stateChangedAtTime ≥ d.preCalibrationTime then
    setState s ch .calibrating
  else s

/-- TouchLib.h:1334-1354, `processStateCalibrating`: keep averaging
until the counter saturates and `calibrationTime` has elapsed, then
move to noise-power measurement, latching `offsetValue` from `avg`
unless it is managed manually. -/
def processStateCalibrating (s : TLSensors) (ch : Nat) : TLSensors :=
  let d := s.getData ch
  let t := elapsed d.lastSampledAtTime d.stateChangedAtTime
  if d.counter < d.filterCoeff - 1 ∨ t < d.calibrationTime then
    updateAvg s ch
  else
    let s := setState s ch .noisePowerMeasurement
    let d2 := s.getData ch
    if !d2.setOffsetValueManually then s.setData ch { d2 with offsetValue := d2.avg }
    else s

/-- TouchLib.h:1356-1372, `processStateNoisePowerMeasurement`. -/
def processStateNoisePowerMeasurement (s : TLSensors) (ch : Nat) : TLSensors :=
  let d := s.getData ch
  let t := elapsed d.lastSampledAtTime d.stateChangedAtTime
  if d.enableNoisePowerMeasurement ∧ t < d.calibrationTime then updateAvg s ch
  else setState s ch .released

/-- TouchLib.h:1374-1386, `processStateReleased`. -/
def processStateReleased (s : TLSensors) (ch : Nat) : TLSensors :=
  let d := s.getData ch
  if d.enableTouchStateMachine ∧ isApproachedD d then
    setState s ch .releasedToApproached
  else updateAvg s ch

/-- TouchLib.h:1388-1408, `processStateReleasedToApproached` (no
averaging in this state). -/
def processStateReleasedToApproached (s : TLSensors) (ch : Nat) : TLSensors :=
  let d := s.getData ch
  if !d.enableTouchStateMachine then s
  else if isApproachedD d then
    if elapsed d.lastSampledAtTime d.stateChangedAtTime ≥ d.releasedToApproachedTime then
      setState s ch .approached
    else s
  else setState s ch .released

/-- TouchLib.h:1410-1428, `processStateApproached`. -/
def processStateApproached (s : TLSensors) (ch : Nat) : TLSensors :=
  let d := s.getData ch
  if !d.enableTouchStateMachine then s
  else if isReleasedD d then setState s ch .approachedToReleased
  else if isPressedD d then setState s ch .approachedToPressed
  else if d.approachedTimeout > 0 ∧
      elapsed d.lastSampledAtTime d.stateChangedAtTime > d.approachedTimeout then
    setState s ch .calibrating
  else s

/-- TouchLib.h:1430-1450, `processStateApproachedToPressed`. -/
def processStateApproachedToPressed (s : TLSensors) (ch : Nat) : TLSensors :=
  let d := s.getData ch
  if !d.enableTouchStateMachine then s
  else if isPressedD d then
    if elapsed d.lastSampledAtTime d.stateChangedAtTime ≥ d.approachedToPressedTime then
      setState s ch .pressed
    else s
  else setState s ch .approached

/-- TouchLib.h:1452-1470, `processStateApproachedToReleased`. -/
def processStateApproachedToReleased (s : TLSensors) (ch : Nat) : TLSensors :=
  let d := s.getData ch
  if !d.enableTouchStateMachine then s
  else if isReleasedD d then
    if elapsed d.lastSampledAtTime d.stateChangedAtTime ≥ d.approachedToReleasedTime then
      setState s ch .released
    else s
  else setState s ch .approached

/-- TouchLib.h:1472-1490, `processStatePressed`. -/
def processStatePressed (s : TLSensors) (ch : Nat) : TLSensors :=
  let d := s.getData ch
  if !d.enableTouchStateMachine then s
  else if isPressedD d then
    if d.pressedTimeout > 0 ∧
        elapsed d.lastSampledAtTime d.stateChangedAtTime > d.pressedTimeout then
      setState s ch .calibrating
    else s
  else setState s ch .pressedToApproached

/-- TouchLib.h:1492-1510, `processStatePressedToApproached`. -/
def processStatePressedToApproached (s : TLSensors) (ch : Nat) : TLSensors :=
  let d := s.getData ch
  if !d.enableTouchStateMachine then s
  else if isPressedD d then setState s ch .pressed
  else if elapsed d.lastSampledAtTime d.stateChangedAtTime ≥ d.pressedToApproachedTime then
    setState s ch .approached
  else s

/-- TouchLib.h:1512-1583, `processSample`: the delta stage followed by
the per-state handler dispatch (the human-readable label update is not
modelled). -/
def processSample (s : TLSensors) (ch : Nat) : TLSensors :=
  let s := s.setData ch (computeDelta (s.getData ch))
  match (s.getData ch).buttonState with
  | .preCalibrating => processStatePreCalibrating s ch
  | .calibrating => processStateCalibrating s ch
  | .noisePowerMeasurement => processStateNoisePowerMeasurement s ch
  | .released => processStateReleased s ch
  | .releasedToApproached => processStateReleasedToApproached s ch
  | .approached => processStateApproached s ch
  | .approachedToReleased => processStateApproachedToReleased s ch
  | .approachedToPressed => processStateApproachedToPressed s ch
  | .pressed => processStatePressed s ch
  | .pressedToApproached => processStatePressedToApproached s ch

/-- TouchLib.h:910-928, `addSample`: slew-rate-limited or plain
accumulation of one raw measurement. -/
def addSample (s : TLSensors) (ch : Nat) (sample : Int) : TLSensors :=
  let d := s.getData ch
  if d.enableSlewrateLimiter then
    if d.slewrateFirstSample then
      s.setData ch { d with raw := sample, slewrateFirstSample := false }
    else
      let d : TLStruct := if sample > d.raw then { d with raw := d.raw + 1 } else d
      let d : TLStruct := if sample < d.raw then { d with raw := d.raw - 1 } else d
      s.setData ch d
  else s.setData ch { d with raw := d.raw + sample }

/-- One iteration of the scan-order traversal of `sample`
(TouchLib.h:1617-1664): take the (up to two) sub-samples selected by
`sampleType`, double the single-ended ones, and accumulate the sum.
`m1` / `m2` are the normal and inverted measurements returned by the
external sample-method callback. -/
def scanStep (s : TLSensors) (ch : Nat) (m1 m2 : Int) : TLSensors :=
  let d := s.getData ch
  let sample1 : Int := if d.sampleType &&& 1 ≠ 0 then m1 else 0
  let sample2 : Int := if d.sampleType &&& 2 ≠ 0 then m2 else 0
  let sample1 := if d.sampleType = 1 then sample1 * 2 else sample1
  let sample2 := if d.sampleType = 2 then sample2 * 2 else sample2
  addSample s ch (sample1 + sample2)

/-- The scan-order traversal of `sample`, with the external measurement
modelled as an oracle indexed by scan position and inversion flag. -/
def scanLoop (meas : Nat → Bool → Int) : List Nat → Nat → TLSensors → TLSensors
  | [], _, s => s
  | c :: rest, pos, s => scanLoop meas rest (pos + 1) (scanStep s c (meas pos false) (meas pos true))

/-- TouchLib.h:1606-1609: reset the raw accumulator and the
slew-rate-limiter first-sample flag of every sensor. -/
def resetLoop : List Nat → TLSensors → TLSensors
  | [], s => s
  | c :: rest, s =>
      resetLoop rest (s.setData c { s.getData c with raw := 0, slewrateFirstSample := true })

/-- TouchLib.h:1668-1674: per sensor, the post-sample hook (modelled by
the oracle `postVal`, which per the sample-method contract refreshes
`value`), the `lastSampledAtTime` stamp and `processSample`. -/
def postLoop (postVal : Nat → Rat) (now : Nat) : List Nat → TLSensors → TLSensors
  | [], s => s
  | c :: rest, s =>
      postLoop postVal now rest
        (processSample
          (s.setData c { s.getData c with value := postVal c, lastSampledAtTime := now }) c)

/-- TouchLib.h:1678-1697: recompute each sensor's boolean state
summaries and the controller-level any-approached / any-pressed flags. -/
def summaryLoop : List Nat → TLSensors → TLSensors
  | [], s => s
  | c :: rest, s =>
      let d := s.getData c
      let d : TLStruct := { d with
        buttonIsCalibrating := false, buttonIsReleased := false,
        buttonIsApproached := false, buttonIsPressed := false }
      let d : TLStruct :=
        if d.buttonState.toNat ≤ ButtonState.noisePowerMeasurement.toNat then
          { d with buttonIsCalibrating := true }
        else d
      let d : TLStruct :=
        if d.buttonState.toNat ≥ ButtonState.released.toNat ∧
            d.buttonState.toNat ≤ ButtonState.releasedToApproached.toNat then
          { d with buttonIsReleased := true }
        else d
      let d : TLStruct :=
        if d.buttonState.toNat ≥ ButtonState.approached.toNat then
          { d with buttonIsApproached := true }
        else d
      let anyA := if d.buttonState.toNat ≥ ButtonState.approached.toNat then true
                  else s.anyButtonIsApproached
      let d : TLStruct :=
        if d.buttonState.toNat ≥ ButtonState.pressed.toNat then
          { d with buttonIsPressed := true }
        else d
      let anyP := if d.buttonState.toNat ≥ ButtonState.pressed.toNat then true
                  else s.anyButtonIsPressed
      summaryLoop rest
        { s.setData c d with anyButtonIsApproached := anyA, anyButtonIsPressed := anyP }

/-- TouchLib.h:1594-1700, `sample`: one full measurement cycle.  The
external collaborators are oracles: `meas pos inv` is the raw
measurement returned by the sample-method callback at scan position
`pos`, and `postVal ch` the `value` established by sensor `ch`'s
post-sample hook; `order` is the controller's scan order and `now` the
millisecond clock. -/
def sample (s : TLSensors) (meas : Nat → Bool → Int) (postVal : Nat → Rat)
    (now : Nat) (order : List Nat) : TLSensors :=
  let s := resetLoop (List.range s.data.length) s
  let s := scanLoop meas order 0 s
  let s := postLoop postVal now (List.range s.data.length) s
  let s := { s with anyButtonIsApproached := false, anyButtonIsPressed := false }
  summaryLoop (List.range s.data.length) s


theorem setState_noop_of_guard (s : TLSensors) (ch : Nat) (ns : ButtonState)
    (hg : (s.getData ch).stateIsBeingChanged = true) : setState s ch ns = s := by
  simp [setState, hg]

theorem setState_noop_of_eq (s : TLSensors) (ch : Nat) (ns : ButtonState)
    (he : (s.getData ch).buttonState = ns) : setState s ch ns = s := by
  simp only [setState, he]
  split
  · rfl
  · simp

theorem length_setState (s : TLSensors) (ch : Nat) (ns : ButtonState) :
    (setState s ch ns).data.length = s.data.length := by
  by_cases hg : (s.getData ch).stateIsBeingChanged = true
  · rw [setState_noop_of_guard s ch ns hg]
  by_cases he : (s.getData ch).buttonState = ns
  · rw [setState_noop_of_eq s ch ns he]
  simp only [setState, hg, Bool.false_eq_true, if_false, if_neg he, setForceCalibratingStates]
  generalize hT : s.setData ch
      { applyStateEntry (s.getData ch) ns with stateIsBeingChanged := true } = s1
  have hlen1 : s1.data.length = s.data.length := by
    rw [← hT]
    simp
  by_cases hm0 : stateMask (s.getData ch) ns = 0
  · have hmc : ¬stateMask (s.getData ch) ns ≠ 0 := fun hh => hh hm0
    simp only [if_neg hmc]
    rw [apply_ite (fun t : TLSensors => t.data.length)]
    simp only [length_addEvent, length_data_setData, ite_self]
    exact hlen1
  · simp only [if_pos hm0]
    rw [apply_ite (fun t : TLSensors => t.data.length)]
    simp only [length_addEvent, length_data_setData, ite_self, fanOutAux_length]
    exact hlen1

theorem length_updateAvg (s : TLSensors) (ch : Nat) :
    (updateAvg s ch).data.length = s.data.length := by
  simp only [updateAvg]
  split
  · rfl
  split
  · rfl
  simp

/-- Per-record counter-cap condition. -/
def counterOk (d : TLStruct) : Prop :=
  1 ≤ d.filterCoeff → d.counter ≤ d.filterCoeff - 1 ∧ d.noiseCounter ≤ d.filterCoeff - 1

instance (d : TLStruct) : Decidable (counterOk d) := by
  unfold counterOk
  infer_instance

/-- Array-wide counter-cap invariant: for every sensor with
`filterCoeff >= 1`, both counters stay at most `filterCoeff - 1`. -/
def counterInv (s : TLSensors) : Prop :=
  ∀ i, i < s.data.length → counterOk (s.getData i)

instance (s : TLSensors) : Decidable (counterInv s) := by
  unfold counterInv
  infer_instance

theorem counterOk_default : counterOk (default : TLStruct) := fun h => absurd h (by decide)

theorem counterOk_getData (s : TLSensors) (h : counterInv s) (i : Nat) :
    counterOk (s.getData i) := by
  by_cases hi : i < s.data.length
  · exact h i hi
  · have : s.getData i = default := by
      simp [getData, List.getD_eq_getElem?_getD, List.getElem?_eq_none (Nat.le_of_not_lt hi)]
    rw [this]
    exact counterOk_default

theorem counterInv_setData (s : TLSensors) (ch : Nat) (d : TLStruct)
    (h : counterInv s) (hd : counterOk d) : counterInv (s.setData ch d) := by
  intro i hi
  rw [length_data_setData] at hi
  rw [getData_setData]
  split
  · exact hd
  · exact h i hi

theorem counterInv_updateAvg (s : TLSensors) (ch : Nat) (h : counterInv s) :
    counterInv (updateAvg s ch) := by
  have hd := counterOk_getData s h ch
  simp only [updateAvg]
  split
  · exact h
  split
  · exact h
  apply counterInv_setData s ch _ h
  by_cases hn : (s.getData ch).enableNoisePowerMeasurement = true ∧
      (s.getData ch).buttonState.toNat > ButtonState.calibrating.toNat
  · simp only [if_pos hn]
    by_cases hnc : (s.getData ch).noiseCounter < (s.getData ch).filterCoeff - 1
    · simp only [if_pos hnc]
      by_cases hc : (s.getData ch).counter < (s.getData ch).filterCoeff - 1
      · simp only [if_pos hc]
        intro hfc
        have := hd hfc
        dsimp only at hfc ⊢
        omega
      · simp only [if_neg hc]
        intro hfc
        have := hd hfc
        dsimp only at hfc ⊢
        omega
    · simp only [if_neg hnc]
      by_cases hc : (s.getData ch).counter < (s.getData ch).filterCoeff - 1
      · simp only [if_pos hc]
        intro hfc
        have := hd hfc
        dsimp only at hfc ⊢
        omega
      · simp only [if_neg hc]
        intro hfc
        exact hd hfc
  · simp only [if_neg hn]
    by_cases hc : (s.getData ch).counter < (s.getData ch).filterCoeff - 1
    · simp only [if_pos hc]
      intro hfc
      have := hd hfc
      dsimp only at hfc ⊢
      omega
    · simp only [if_neg hc]
      intro hfc
      exact hd hfc

theorem counterInv_setState (s : TLSensors) (ch : Nat) (ns : ButtonState)
    (h : counterInv s) : counterInv (setState s ch ns) := by
  by_cases hg : (s.getData ch).stateIsBeingChanged = true
  · rw [setState_noop_of_guard s ch ns hg]
    exact h
  by_cases he : (s.getData ch).buttonState = ns
  · rw [setState_noop_of_eq s ch ns he]
    exact h
  intro i hi
  rw [length_setState] at hi
  by_cases hic : i = ch
  · subst hic
    have hguard : (s.getData i).stateIsBeingChanged = false := Bool.eq_false_iff.mpr hg
    by_cases hm : stateMask (s.getData i) ns = 0
    · rw [setState_getData_self_mask0 s i ns hi hguard he hm]
      intro hfc
      have := counterOk_getData s h i
      dsimp only at hfc ⊢
      rw [applyStateEntry_counter, applyStateEntry_noiseCounter, applyStateEntry_filterCoeff]
      rw [applyStateEntry_filterCoeff] at hfc
      have hb := this hfc
      constructor
      · split
        · exact Nat.zero_le _
        · exact hb.1
      · split
        · exact Nat.zero_le _
        · exact hb.2
    · rw [setState_getData_self_mask s i ns hi hguard he hm]
      split
      · intro hfc
        have := counterOk_getData s h i
        dsimp only at hfc ⊢
        rw [applyStateEntry_counter, applyStateEntry_noiseCounter, applyStateEntry_filterCoeff]
        rw [applyStateEntry_filterCoeff] at hfc
        have hb := this hfc
        constructor
        · split
          · exact Nat.zero_le _
          · exact hb.1
        · split
          · exact Nat.zero_le _
          · exact hb.2
      · intro hfc
        have := counterOk_getData s h i
        dsimp only at hfc ⊢
        rw [applyStateEntry_counter, applyStateEntry_noiseCounter, applyStateEntry_filterCoeff]
        rw [applyStateEntry_filterCoeff] at hfc
        have hb := this hfc
        constructor
        · split
          · exact Nat.zero_le _
          · exact hb.1
        · split
          · exact Nat.zero_le _
          · exact hb.2
  · have hu := setState_getData_other_untouched s ch ns i hic
    obtain ⟨h1, h2, h3, _, _⟩ := hu
    intro hfc
    rw [h3] at hfc
    rw [h1, h2, h3]
    exact counterOk_getData s h i hfc


theorem computeDelta_counters (d : TLStruct) :
    (computeDelta d).counter = d.counter ∧ (computeDelta d).noiseCounter = d.noiseCounter ∧
    (computeDelta d).filterCoeff = d.filterCoeff := by
  simp only [computeDelta]
  split
  · exact ⟨rfl, rfl, rfl⟩
  · split <;> split <;> exact ⟨rfl, rfl, rfl⟩

theorem counterOk_computeDelta (d : TLStruct) (hd : counterOk d) :
    counterOk (computeDelta d) := by
  intro hfc
  obtain ⟨h1, h2, h3⟩ := computeDelta_counters d
  rw [h3] at hfc
  rw [h1, h2, h3]
  exact hd hfc

theorem counterInv_processStatePreCalibrating (s : TLSensors) (ch : Nat)
    (h : counterInv s) : counterInv (processStatePreCalibrating s ch) := by
  simp only [processStatePreCalibrating]
  split
  · exact counterInv_setState s ch _ h
  · exact h

theorem counterInv_processStateCalibrating (s : TLSensors) (ch : Nat)
    (h : counterInv s) : counterInv (processStateCalibrating s ch) := by
  simp only [processStateCalibrating]
  split
  · exact counterInv_updateAvg s ch h
  · have h2 := counterInv_setState s ch .noisePowerMeasurement h
    split
    · exact counterInv_setData _ ch _ h2
        (fun hfc => counterOk_getData _ h2 ch hfc)
    · exact h2

theorem counterInv_processStateNoisePowerMeasurement (s : TLSensors) (ch : Nat)
    (h : counterInv s) : counterInv (processStateNoisePowerMeasurement s ch) := by
  simp only [processStateNoisePowerMeasurement]
  split
  · exact counterInv_updateAvg s ch h
  · exact counterInv_setState s ch _ h

theorem counterInv_processStateReleased (s : TLSensors) (ch : Nat)
    (h : counterInv s) : counterInv (processStateReleased s ch) := by
  simp only [processStateReleased]
  split
  · exact counterInv_setState s ch _ h
  · exact counterInv_updateAvg s ch h

theorem counterInv_processStateReleasedToApproached (s : TLSensors) (ch : Nat)
    (h : counterInv s) : counterInv (processStateReleasedToApproached s ch) := by
  simp only [processStateReleasedToApproached]
  split
  · exact h
  split
  · split
    · exact counterInv_setState s ch _ h
    · exact h
  · exact counterInv_setState s ch _ h

theorem counterInv_processStateApproached (s : TLSensors) (ch : Nat)
    (h : counterInv s) : counterInv (processStateApproached s ch) := by
  simp only [processStateApproached]
  split
  · exact h
  split
  · exact counterInv_setState s ch _ h
  split
  · exact counterInv_setState s ch _ h
  split
  · exact counterInv_setState s ch _ h
  · exact h

theorem counterInv_processStateApproachedToPressed (s : TLSensors) (ch : Nat)
    (h : counterInv s) : counterInv (processStateApproachedToPressed s ch) := by
  simp only [processStateApproachedToPressed]
  split
  · exact h
  split
  · split
    · exact counterInv_setState s ch _ h
    · exact h
  · exact counterInv_setState s ch _ h

theorem counterInv_processStateApproachedToReleased (s : TLSensors) (ch : Nat)
    (h : counterInv s) : counterInv (processStateApproachedToReleased s ch) := by
  simp only [processStateApproachedToReleased]
  split
  · exact h
  split
  · split
    · exact counterInv_setState s ch _ h
    · exact h
  · exact counterInv_setState s ch _ h

theorem counterInv_processStatePressed (s : TLSensors) (ch : Nat)
    (h : counterInv s) : counterInv (processStatePressed s ch) := by
  simp only [processStatePressed]
  split
  · exact h
  split
  · split
    · exact counterInv_setState s ch _ h
    · exact h
  · exact counterInv_setState s ch _ h

theorem counterInv_processStatePressedToApproached (s : TLSensors) (ch : Nat)
    (h : counterInv s) : counterInv (processStatePressedToApproached s ch) := by
  simp only [processStatePressedToApproached]
  split
  · exact h
  split
  · exact counterInv_setState s ch _ h
  split
  · exact counterInv_setState s ch _ h
  · exact h

theorem counterInv_processSample (s : TLSensors) (ch : Nat) (h : counterInv s) :
    counterInv (processSample s ch) := by
  simp only [processSample]
  have h1 : counterInv (s.setData ch (computeDelta (s.getData ch))) :=
    counterInv_setData s ch _ h (counterOk_computeDelta _ (counterOk_getData s h ch))
  split
  · exact counterInv_processStatePreCalibrating _ ch h1
  · exact counterInv_processStateCalibrating _ ch h1
  · exact counterInv_processStateNoisePowerMeasurement _ ch h1
  · exact counterInv_processStateReleased _ ch h1
  · exact counterInv_processStateReleasedToApproached _ ch h1
  · exact counterInv_processStateApproached _ ch h1
  · exact counterInv_processStateApproachedToReleased _ ch h1
  · exact counterInv_processStateApproachedToPressed _ ch h1
  · exact counterInv_processStatePressed _ ch h1
  · exact counterInv_processStatePressedToApproached _ ch h1

theorem counterInv_addSample (s : TLSensors) (ch : Nat) (x : Int) (h : counterInv s) :
    counterInv (addSample s ch x) := by
  simp only [addSample]
  split
  · split
    · exact counterInv_setData s ch _ h (fun hfc => counterOk_getData s h ch hfc)
    · split <;> split <;>
        exact counterInv_setData s ch _ h (fun hfc => counterOk_getData s h ch hfc)
  · exact counterInv_setData s ch _ h (fun hfc => counterOk_getData s h ch hfc)

theorem counterInv_scanStep (s : TLSensors) (ch : Nat) (m1 m2 : Int) (h : counterInv s) :
    counterInv (scanStep s ch m1 m2) := by
  simp only [scanStep]
  exact counterInv_addSample s ch _ h

theorem counterInv_resetLoop (l : List Nat) (s : TLSensors) (h : counterInv s) :
    counterInv (resetLoop l s) := by
  induction l generalizing s with
  | nil => exact h
  | cons c rest ih =>
    exact ih _ (counterInv_setData s c _ h (fun hfc => counterOk_getData s h c hfc))

theorem counterInv_scanLoop (meas : Nat → Bool → Int) (l : List Nat) (pos : Nat)
    (s : TLSensors) (h : counterInv s) : counterInv (scanLoop meas l pos s) := by
  induction l generalizing pos s with
  | nil => exact h
  | cons c rest ih => exact ih _ _ (counterInv_scanStep s c _ _ h)

theorem counterInv_postLoop (postVal : Nat → Rat) (now : Nat) (l : List Nat)
    (s : TLSensors) (h : counterInv s) : counterInv (postLoop postVal now l s) := by
  induction l generalizing s with
  | nil => exact h
  | cons c rest ih =>
    exact ih _ (counterInv_processSample _ c
      (counterInv_setData s c _ h (fun hfc => counterOk_getData s h c hfc)))

theorem counterInv_summaryLoop (l : List Nat) (s : TLSensors) (h : counterInv s) :
    counterInv (summaryLoop l s) := by
  induction l generalizing s with
  | nil => exact h
  | cons c rest ih =>
    simp only [summaryLoop]
    apply ih
    intro i hi
    have hi2 : i < s.data.length := by simpa using hi
    show counterOk ((s.setData c _).getData i)
    rw [getData_setData]
    split
    · split_ifs <;> exact fun hfc => counterOk_getData s h c hfc
    · exact h i hi2

theorem counterInv_sample (s : TLSensors) (meas : Nat → Bool → Int)
    (postVal : Nat → Rat) (now : Nat) (order : List Nat) (h : counterInv s) :
    counterInv (sample s meas postVal now order) := by
  simp only [sample]
  apply counterInv_summaryLoop
  intro i hi
  exact counterInv_postLoop postVal now _ _
    (counterInv_scanLoop meas order 0 _ (counterInv_resetLoop _ s h)) i (by simpa using hi)


/-- TouchLib.h:884-902: the per-sensor initialization loop of the
TLSensors constructor — reset the boolean summaries, enter the
pre-calibrating state and zero the live statistics (the label update
and the per-sensor measurement count are not modelled). -/
def constructorLoop (now : Nat) : List Nat → TLSensors → TLSensors
  | [], s => s
  | c :: rest, s =>
      let s := s.setData c { s.getData c with
        buttonIsCalibrating := false, buttonIsReleased := false,
        buttonIsApproached := false, buttonIsPressed := false }
      let s := setState s c .preCalibrating
      let d := s.getData c
      let s := s.setData c { d with
        counter := 0, noiseCounter := 0, forcedCal := false, raw := 0, value := 0,
        avg := 0, noisePower := 0, delta := 0, maxDelta := 0,
        stateChangedAtTime := now, lastSampledAtTime := 0 }
      constructorLoop now rest s

theorem length_constructorLoop (now : Nat) (l : List Nat) (s : TLSensors) :
    (constructorLoop now l s).data.length = s.data.length := by
  induction l generalizing s with
  | nil => rfl
  | cons c rest ih =>
    simp only [constructorLoop]
    rw [ih, length_data_setData, length_setState, length_data_setData]

theorem constructorLoop_counters_not_mem (now : Nat) (l : List Nat) (s : TLSensors)
    (m : Nat) (hm : m ∉ l) :
    ((constructorLoop now l s).getData m).counter = (s.getData m).counter ∧
    ((constructorLoop now l s).getData m).noiseCounter = (s.getData m).noiseCounter := by
  induction l generalizing s with
  | nil => exact ⟨rfl, rfl⟩
  | cons c rest ih =>
    have hmc : m ≠ c := fun h => hm (h ▸ List.mem_cons_self c rest)
    have hmr : m ∉ rest := fun h => hm (List.mem_cons_of_mem c h)
    simp only [constructorLoop]
    obtain ⟨i1, i2⟩ := ih _ hmr
    rw [i1, i2, getData_setData_ne _ _ hmc]
    obtain ⟨u1, u2, _, _, _⟩ := setState_getData_other_untouched
      (s.setData c { s.getData c with
        buttonIsCalibrating := false, buttonIsReleased := false,
        buttonIsApproached := false, buttonIsPressed := false }) c .preCalibrating m hmc
    rw [u1, u2, getData_setData_ne _ _ hmc]
    exact ⟨rfl, rfl⟩

theorem constructorLoop_counters (now : Nat) (l : List Nat) (s : TLSensors)
    (hnd : l.Nodup) (i : Nat) (hi : i ∈ l) (hlen : i < s.data.length) :
    ((constructorLoop now l s).getData i).counter = 0 ∧
    ((constructorLoop now l s).getData i).noiseCounter = 0 := by
  induction l generalizing s with
  | nil => exact absurd hi (List.not_mem_nil i)
  | cons c rest ih =>
    have hndr : rest.Nodup := (List.nodup_cons.mp hnd).2
    by_cases hic : i = c
    · subst hic
      simp only [constructorLoop]
      have hnotr : i ∉ rest := (List.nodup_cons.mp hnd).1
      obtain ⟨f1, f2⟩ := constructorLoop_counters_not_mem now rest _ i hnotr
      rw [f1, f2]
      have hlen2 : i < ((setState (s.setData i { s.getData i with
          buttonIsCalibrating := false, buttonIsReleased := false,
          buttonIsApproached := false, buttonIsPressed := false }) i
          ButtonState.preCalibrating)).data.length := by
        rw [length_setState, length_data_setData]
        exact hlen
      rw [getData_setData_self _ _ _ hlen2]
      exact ⟨rfl, rfl⟩
    · have hir : i ∈ rest := by
        rcases List.mem_cons.mp hi with h | h
        · exact absurd h hic
        · exact h
      simp only [constructorLoop]
      exact ih _ hndr hir
        (by rw [length_data_setData, length_setState, length_data_setData]; exact hlen)

theorem counterInv_constructorLoop (now : Nat) (s : TLSensors) :
    counterInv (constructorLoop now (List.range s.data.length) s) := by
  intro i hi
  rw [length_constructorLoop] at hi
  obtain ⟨h1, h2⟩ := constructorLoop_counters now (List.range s.data.length) s
    (List.nodup_range _) i (List.mem_range.mpr hi) hi
  intro _
  rw [h1, h2]
  exact ⟨Nat.zero_le _, Nat.zero_le _⟩

/-- C5: counter cap invariant — for every sensor with
`filterCoeff >= 1`, after the constructor's initialization loop and
after every call to `updateAvg`, `setState` or `sample`, the fields
`counter` and `noiseCounter` never exceed `filterCoeff - 1`. -/
theorem counter_cap_invariant :
    (∀ (now : Nat) (s : TLSensors),
      counterInv (constructorLoop now (List.range s.data.length) s)) ∧
    (∀ (s : TLSensors) (ch : Nat), counterInv s → counterInv (updateAvg s ch)) ∧
    (∀ (s : TLSensors) (ch : Nat) (ns : ButtonState),
      counterInv s → counterInv (setState s ch ns)) ∧
    (∀ (s : TLSensors) (meas : Nat → Bool → Int) (postVal : Nat → Rat)
      (now : Nat) (order : List Nat),
      counterInv s → counterInv (sample s meas postVal now order)) :=
  ⟨counterInv_constructorLoop,
   fun s ch h => counterInv_updateAvg s ch h,
   fun s ch ns h => counterInv_setState s ch ns h,
   fun s meas postVal now order h => counterInv_sample s meas postVal now order h⟩


@[simp]
theorem applyStateEntry_delta (d : TLStruct) (ns : ButtonState) :
    (applyStateEntry d ns).delta = d.delta := by
  cases ns <;> rfl

theorem setState_delta (s : TLSensors) (ch : Nat) (ns : ButtonState)
    (hch : ch < s.data.length) :
    ((setState s ch ns).getData ch).delta = (s.getData ch).delta := by
  by_cases hg : (s.getData ch).stateIsBeingChanged = true
  · rw [setState_noop_of_guard s ch ns hg]
  by_cases he : (s.getData ch).buttonState = ns
  · rw [setState_noop_of_eq s ch ns he]
  have hguard : (s.getData ch).stateIsBeingChanged = false := Bool.eq_false_iff.mpr hg
  by_cases hm : stateMask (s.getData ch) ns = 0
  · rw [setState_getData_self_mask0 s ch ns hch hguard he hm]
    simp
  · rw [setState_getData_self_mask s ch ns hch hguard he hm]
    split <;> simp

theorem updateAvg_delta (s : TLSensors) (ch : Nat) :
    ((updateAvg s ch).getData ch).delta = (s.getData ch).delta := by
  simp only [updateAvg]
  split
  · rfl
  split
  · rfl
  rw [getData_setData]
  split
  · split_ifs <;> rfl
  · rfl

theorem length_processStateHandlers (s : TLSensors) (ch : Nat) :
    (processStatePreCalibrating s ch).data.length = s.data.length ∧
    (processStateCalibrating s ch).data.length = s.data.length ∧
    (processStateNoisePowerMeasurement s ch).data.length = s.data.length ∧
    (processStateReleased s ch).data.length = s.data.length ∧
    (processStateReleasedToApproached s ch).data.length = s.data.length ∧
    (processStateApproached s ch).data.length = s.data.length ∧
    (processStateApproachedToPressed s ch).data.length = s.data.length ∧
    (processStateApproachedToReleased s ch).data.length = s.data.length ∧
    (processStatePressed s ch).data.length = s.data.length ∧
    (processStatePressedToApproached s ch).data.length = s.data.length := by
  refine ⟨?_, ?_, ?_, ?_, ?_, ?_, ?_, ?_, ?_, ?_⟩ <;>
    · simp only [processStatePreCalibrating, processStateCalibrating,
        processStateNoisePowerMeasurement, processStateReleased,
        processStateReleasedToApproached, processStateApproached,
        processStateApproachedToPressed, processStateApproachedToReleased,
        processStatePressed, processStatePressedToApproached]
      split_ifs <;>
        simp [length_setState, length_updateAvg, length_data_setData]

theorem processSample_delta (s : TLSensors) (ch : Nat) (hch : ch < s.data.length) :
    ((processSample s ch).getData ch).delta = (computeDelta (s.getData ch)).delta := by
  simp only [processSample]
  have hch1 : ch < (s.setData ch (computeDelta (s.getData ch))).data.length := by
    simpa using hch
  have hbase : ((s.setData ch (computeDelta (s.getData ch))).getData ch).delta =
      (computeDelta (s.getData ch)).delta := by
    rw [getData_setData_self _ _ _ hch]
  generalize hS : s.setData ch (computeDelta (s.getData ch)) = s1 at hch1 hbase
  split <;>
    simp only [processStatePreCalibrating, processStateCalibrating,
      processStateNoisePowerMeasurement, processStateReleased,
      processStateReleasedToApproached, processStateApproached,
      processStateApproachedToPressed, processStateApproachedToReleased,
      processStatePressed, processStatePressedToApproached]
  all_goals split_ifs
  all_goals
    first
    | (rw [setState_delta _ _ _ hch1]; exact hbase)
    | (rw [updateAvg_delta]; exact hbase)
    | exact hbase
    | (have hch2 : ch < (setState s1 ch .noisePowerMeasurement).data.length := by
         rw [length_setState]; exact hch1
       rw [getData_setData_self _ _ _ hch2]
       show ((setState s1 ch ButtonState.noisePowerMeasurement).getData ch).delta = _
       rw [setState_delta _ _ _ hch1]
       exact hbase)

end TLSensors

open TLSensors

/-- A sensor record sitting in the bounce-back hold state, used as a
concrete witness input. -/
def wSensorA : TLStruct :=
  { (default : TLStruct) with
    buttonState := .approachedToReleased
    filterCoeff := 16
    lastSampledAtTime := 200
    stateChangedAtTime := 70 }

/-- One-sensor controller in the bounce-back hold state. -/
def wCtrlA : TLSensors :=
  { data := [wSensorA]
    anyButtonIsApproached := false
    anyButtonIsPressed := false
    error := 0
    hasCallback := true
    events := [] }

/-- A sensor whose force-calibration-when-pressing mask selects both
sensors of `wCtrlB`. -/
def wSensorB0 : TLStruct :=
  { (default : TLStruct) with
    buttonState := .released
    filterCoeff := 16
    forceCalibrationWhenPressing := 3
    lastSampledAtTime := 300
    stateChangedAtTime := 80 }

/-- Second sensor of `wCtrlB`, plain released state. -/
def wSensorB1 : TLStruct :=
  { (default : TLStruct) with
    buttonState := .released
    filterCoeff := 16
    lastSampledAtTime := 300
    stateChangedAtTime := 90 }

/-- Two-sensor controller for the fan-out witness. -/
def wCtrlB : TLSensors :=
  { data := [wSensorB0, wSensorB1]
    anyButtonIsApproached := false
    anyButtonIsPressed := false
    error := 0
    hasCallback := true
    events := [] }

/-- A sensor still in the NoisePowerMeasurement calibration state whose
value has drifted from the (zero) baseline average. -/
def wSensorC : TLStruct :=
  { (default : TLStruct) with
    buttonState := .noisePowerMeasurement
    filterCoeff := 16
    value := 5
    avg := 0
    lastSampledAtTime := 100
    stateChangedAtTime := 100
    calibrationTime := 500 }

/-- One-sensor controller in the NoisePowerMeasurement state. -/
def wCtrlC : TLSensors :=
  { data := [wSensorC]
    anyButtonIsApproached := false
    anyButtonIsPressed := false
    error := 0
    hasCallback := false
    events := [] }

/-- Counterexample to C6 as stated: in the NoisePowerMeasurement state —
a calibration state (`isCalibratingD` holds) — `processSample` computes
a non-zero delta (the code gates on `buttonState <
buttonStateNoisePowerMeasurement`, strictly). -/
theorem delta_gating_counterexample :
    (wCtrlC.getData 0).buttonState = .noisePowerMeasurement ∧
    isCalibratingD (wCtrlC.getData 0) = true ∧
    ((processSample wCtrlC 0).getData 0).delta = 5 := by
  refine ⟨by decide, by decide, ?_⟩
  rw [processSample_delta wCtrlC 0 (by decide)]
  show (computeDelta wSensorC).delta = 5
  simp only [computeDelta]
  rw [if_neg (by decide :
    ¬wSensorC.buttonState.toNat < ButtonState.noisePowerMeasurement.toNat)]
  simp only [apply_ite (fun x : TLStruct => x.delta), ite_self]
  rw [if_neg (by decide : ¬wSensorC.direction = Direction.directionNegative)]
  show (5 : Rat) - 0 = 5
  norm_num

/-- C6 (amended): the delta stage of `processSample` forces delta to
zero exactly in the states strictly below NoisePowerMeasurement
(PreCalibrating and Calibrating); from NoisePowerMeasurement onwards it
computes `value - avg` (`avg - value` for reversed polarity) and updates
`maxDelta` to the running maximum; the delta so computed is what
`processSample` leaves in the record. -/
theorem delta_gating :
    (∀ d : TLStruct, d.buttonState.toNat < ButtonState.noisePowerMeasurement.toNat →
      (computeDelta d).delta = 0 ∧ (computeDelta d).maxDelta = d.maxDelta) ∧
    (∀ d : TLStruct, ButtonState.noisePowerMeasurement.toNat ≤ d.buttonState.toNat →
      (computeDelta d).delta =
        (if d.direction = .directionNegative then d.avg - d.value else d.value - d.avg) ∧
      (computeDelta d).maxDelta = max d.maxDelta
        (if d.direction = .directionNegative then d.avg - d.value else d.value - d.avg)) ∧
    (∀ (s : TLSensors) (ch : Nat), ch < s.data.length →
      ((processSample s ch).getData ch).delta = (computeDelta (s.getData ch)).delta) := by
  refine ⟨?_, ?_, fun s ch hch => processSample_delta s ch hch⟩
  · intro d hd
    simp only [computeDelta, if_pos hd]
    simp
  · intro d hd
    have hd2 : ¬d.buttonState.toNat < ButtonState.noisePowerMeasurement.toNat :=
      Nat.not_lt.mpr hd
    simp only [computeDelta, if_neg hd2]
    constructor
    · simp only [apply_ite (fun x : TLStruct => x.delta), ite_self]
    · simp only [apply_ite (fun x : TLStruct => x.maxDelta)]
      by_cases hmax : d.maxDelta <
          (if d.direction = Direction.directionNegative then d.avg - d.value
           else d.value - d.avg)
      · rw [if_pos hmax]
        exact (max_eq_right (le_of_lt hmax)).symm
      · rw [if_neg hmax]
        exact (max_eq_left (not_lt.mp hmax)).symm

/-- Witness for the amended C6 at concrete inputs: a pre-calibrating
sensor gets delta zero, the NoisePowerMeasurement sensor of `wCtrlC`
gets `value - avg`, and `processSample` preserves the computed delta. -/
theorem delta_gating_witness :
    ((computeDelta (default : TLStruct)).delta = 0 ∧
      (computeDelta (default : TLStruct)).maxDelta = (default : TLStruct).maxDelta) ∧
    ((computeDelta wSensorC).delta =
        (if wSensorC.direction = .directionNegative then wSensorC.avg - wSensorC.value
         else wSensorC.value - wSensorC.avg) ∧
      (computeDelta wSensorC).maxDelta = max wSensorC.maxDelta
        (if wSensorC.direction = .directionNegative then wSensorC.avg - wSensorC.value
         else wSensorC.value - wSensorC.avg)) ∧
    ((processSample wCtrlC 0).getData 0).delta = (computeDelta (wCtrlC.getData 0)).delta :=
  ⟨delta_gating.1 default (by decide),
   delta_gating.2.1 wSensorC (by decide),
   delta_gating.2.2 wCtrlC 0 (by decide)⟩

/-- Witness for C5 at concrete inputs: the invariant holds on `wCtrlA`
and is preserved by one `updateAvg`, one `setState` and one full
measurement cycle. -/
theorem counter_cap_invariant_witness :
    counterInv wCtrlA ∧ counterInv (updateAvg wCtrlA 0) ∧
    counterInv (setState wCtrlA 0 .approached) ∧
    counterInv (sample wCtrlA (fun _ _ => 7) (fun _ => 3) 500 [0]) :=
  ⟨by decide,
   counter_cap_invariant.2.1 wCtrlA 0 (by decide),
   counter_cap_invariant.2.2.1 wCtrlA 0 .approached (by decide),
   counter_cap_invariant.2.2.2 wCtrlA (fun _ _ => 7) (fun _ => 3) 500 [0] (by decide)⟩


/-- Witness for C7 at a concrete input: the bounce-back transition
ApproachedToReleased to Approached leaves the timestamp untouched. -/
theorem setState_timestamp_policy_witness :
    (0 < wCtrlA.data.length) ∧
    ((setState wCtrlA 0 .approached).getData 0).stateChangedAtTime =
      (wCtrlA.getData 0).stateChangedAtTime :=
  ⟨by decide,
    (setState_timestamp_policy wCtrlA 0 .approached (by decide) (by decide)
        (by decide)).1 (Or.inl ⟨by decide, by decide⟩)⟩

/-- Witness for C8 at a concrete input: pressing sensor 0 of `wCtrlB`
forces sensor 1 to PreCalibrating and overrides sensor 0's own target. -/
theorem setState_forceCalibration_fanOut_witness :
    (((setState wCtrlB 0 .pressed).getData 1).buttonState = .preCalibrating ∧
      ((setState wCtrlB 0 .pressed).getData 1).forcedCal = true) ∧
    (((setState wCtrlB 0 .pressed).getData 0).buttonState = .preCalibrating ∧
      ((setState wCtrlB 0 .pressed).getData 0).forcedCal = true) :=
  ⟨(setState_forceCalibration_fanOut wCtrlB 0 .pressed (by decide) (by decide)
      (by decide) (by decide)).1 1 (by decide) (by decide) (by decide),
   (setState_forceCalibration_fanOut wCtrlB 0 .pressed (by decide) (by decide)
      (by decide) (by decide)).2 (by decide)⟩

/-- Witness for C9 at a concrete input: the bounce-back transition to
Approached is not major, so no event is appended. -/
theorem majorChange_notification_witness :
    (checkForMajorChange .approachedToReleased .approached = true ↔
      (ButtonState.approached = .preCalibrating ∨
       (ButtonState.approached = .calibrating ∧
         ButtonState.approachedToReleased ≠ .preCalibrating) ∨
       (ButtonState.approached = .released ∧
         ButtonState.approachedToReleased ≠ .releasedToApproached) ∨
       (ButtonState.approached = .approached ∧
         ButtonState.approachedToReleased ≠ .approachedToReleased ∧
         ButtonState.approachedToReleased ≠ .approachedToPressed) ∨
       (ButtonState.approached = .pressed ∧
         ButtonState.approachedToReleased ≠ .pressedToApproached))) ∧
    (setState wCtrlA 0 .approached).events = wCtrlA.events ++
      (if checkForMajorChange (wCtrlA.getData 0).buttonState .approached = true ∧
          wCtrlA.hasCallback = true
       then [(0, (wCtrlA.getData 0).buttonState, ButtonState.approached)] else []) :=
  ⟨majorChange_notification.1 .approachedToReleased .approached,
   majorChange_notification.2 wCtrlA 0 .approached (by decide) (by decide) (by decide)⟩



namespace ScanOrder

/-- TouchLib.h:418-440, the probing loop of `addChannel`: starting from
the random offset `r`, visit `(n + r) % L` for `n = 0, 1, ...` and
return the first empty (value 255) slot.  The first argument counts the
probes still allowed (the C loop makes exactly `L` of them). -/
def findEmptyAux (so : List Nat) (L r : Nat) : Nat → Nat → Option Nat
  | 0, _ => none
  | fuel + 1, n =>
      if so.getD ((n + r) % L) 0 = 255 then some ((n + r) % L)
      else findEmptyAux so L r fuel (n + 1)

/-- TouchLib.h:418-440, `addChannel`: insert channel `ch` at the first
empty slot found by probing from the random offset `r`; returns the
updated scan order and the error code stored in `error` (0 on success,
-1 when no empty slot was found). -/
def addChannel (so : List Nat) (r ch : Nat) : List Nat × Int :=
  match findEmptyAux so so.length r so.length 0 with
  | some pos => (so.set pos ch, 0)
  | none => (so, -1)

/-- The nested loops of `initScanOrder` (TouchLib.h:460-464): insert
each channel of `cs` in turn, threading the scan order; the error of
each `addChannel` call overwrites the previous one.  `rs i` is the
value returned by the seeded `random(0, length)` at the i-th call. -/
def insertAll (rs : Nat → Nat) : List Nat → Nat → List Nat → Int → List Nat × Int
  | [], _, so, err => (so, err)
  | c :: cs, i, so, err =>
      let p := addChannel so (rs i) c
      insertAll rs cs (i + 1) p.1 p.2

/-- TouchLib.h:442-465, `initScanOrder`: fill the scan order with the
sentinel 255, then, for each of `nM` rounds, insert every channel
`0 .. nS-1` once, using the seeded random stream `rs`. -/
def initScanOrder (nS nM : Nat) (rs : Nat → Nat) : List Nat × Int :=
  insertAll rs ((List.replicate nM (List.range nS)).flatten) 0
    (List.replicate (nS * nM) 255) 0

theorem findEmptyAux_spec (so : List Nat) (L r : Nat) :
    ∀ (fuel n : Nat), (∃ j, j < fuel ∧ so.getD ((n + j + r) % L) 0 = 255) →
    ∃ pos, findEmptyAux so L r fuel n = some pos ∧ so.getD pos 0 = 255 := by
  intro fuel
  induction fuel with
  | zero =>
    intro n ⟨j, hj, _⟩
    exact absurd hj (Nat.not_lt_zero j)
  | succ fuel ih =>
    intro n ⟨j, hj, hval⟩
    rw [findEmptyAux]
    by_cases h0 : so.getD ((n + r) % L) 0 = 255
    · exact ⟨(n + r) % L, by rw [if_pos h0], h0⟩
    · rw [if_neg h0]
      apply ih (n + 1)
      rcases j with _ | j
      · exact absurd hval h0
      · exact ⟨j, by omega, by
          have : n + 1 + j = n + (j + 1) := by omega
          rw [this]
          exact hval⟩

theorem exists_probe_hit (so : List Nat) (L r : Nat) (hL : so.length = L)
    (hpos : 0 < L) (hmem : 255 ∈ so) :
    ∃ j, j < L ∧ so.getD ((0 + j + r) % L) 0 = 255 := by
  obtain ⟨i, hi, hval⟩ := List.getElem_of_mem hmem
  refine ⟨(i + L - r % L) % L, Nat.mod_lt _ hpos, ?_⟩
  have hiL : i < L := hL ▸ hi
  have hkey : (0 + (i + L - r % L) % L + r) % L = i := by
    rw [Nat.zero_add, Nat.mod_add_mod]
    have hdm := Nat.div_add_mod r L
    have hrL : r % L < L := Nat.mod_lt r hpos
    have h2 : i + L - r % L + r = i + L + L * (r / L) := by omega
    rw [h2, Nat.add_mul_mod_self_left, Nat.add_mod_right]
    exact Nat.mod_eq_of_lt hiL
  rw [hkey]
  rw [List.getD_eq_getElem?_getD, List.getElem?_eq_getElem hi, Option.getD_some]
  exact hval

theorem addChannel_spec (so : List Nat) (r ch : Nat) (hpos : 0 < so.length)
    (hmem : 255 ∈ so) :
    ∃ pos, pos < so.length ∧ so.getD pos 0 = 255 ∧
      addChannel so r ch = (so.set pos ch, 0) := by
  obtain ⟨j, hj, hval⟩ := exists_probe_hit so so.length r rfl hpos hmem
  obtain ⟨pos, hfind, hval2⟩ := findEmptyAux_spec so so.length r so.length 0 ⟨j, hj, hval⟩
  refine ⟨pos, ?_, hval2, ?_⟩
  · by_cases hlt : pos < so.length
    · exact hlt
    · exfalso
      have : so.getD pos 0 = 0 := by
        rw [List.getD_eq_getElem?_getD, List.getElem?_eq_none (Nat.le_of_not_lt hlt)]
        rfl
      rw [this] at hval2
      exact absurd hval2 (by decide)
  · rw [addChannel, hfind]

/-- Decompose the count of a list around a written slot: setting slot
`pos` (currently holding 255) to `a` trades one 255 for one `a`. -/
theorem count_set_split (l : List Nat) (pos a : Nat) (hpos : pos < l.length)
    (hval : l[pos] = 255) (x : Nat) :
    (l.set pos a).count x + (if 255 = x then 1 else 0) =
      l.count x + (if a = x then 1 else 0) := by
  rw [List.set_eq_take_cons_drop a hpos]
  conv_rhs => rw [← List.take_append_drop pos l, List.drop_eq_getElem_cons hpos, hval]
  simp only [List.count_append, List.count_cons]
  by_cases h1 : (255 : Nat) = x <;> by_cases h2 : a = x <;>
    simp [h1, h2, beq_iff_eq] <;> omega

theorem insertAll_spec (rs : Nat → Nat) :
    ∀ (cs : List Nat) (i : Nat) (so : List Nat) (err : Int),
    (∀ c ∈ cs, c ≠ 255) → cs.length ≤ so.count 255 → 0 < so.length →
    (insertAll rs cs i so err).1.length = so.length ∧
    (insertAll rs cs i so err).1.count 255 + cs.length = so.count 255 ∧
    (∀ x, x ≠ 255 → (insertAll rs cs i so err).1.count x = so.count x + cs.count x) ∧
    (insertAll rs cs i so err).2 = (if cs = [] then err else 0) := by
  intro cs
  induction cs with
  | nil =>
    intro i so err _ _ _
    exact ⟨rfl, rfl, fun x _ => by simp [insertAll], by simp [insertAll]⟩
  | cons c cs ih =>
    intro i so err hvals hcount hpos
    have hc255 : c ≠ 255 := hvals c (List.mem_cons_self c cs)
    have hmem : 255 ∈ so := by
      apply List.count_pos_iff.mp
      have : (c :: cs).length ≥ 1 := by simp
      omega
    obtain ⟨pos, hposlt, hval, heq⟩ := addChannel_spec so (rs i) c hpos hmem
    have hvalElem : so[pos] = 255 := by
      have := List.getD_eq_getElem?_getD so pos 0 ▸ hval
      rwa [List.getElem?_eq_getElem hposlt, Option.getD_some] at this
    have hsplit := count_set_split so pos c hposlt hvalElem
    have h255 : (so.set pos c).count 255 + 1 = so.count 255 := by
      have := hsplit 255
      simpa [hc255] using this
    simp only [insertAll, heq]
    have hrec := ih (i + 1) (so.set pos c) 0
      (fun x hx => hvals x (List.mem_cons_of_mem c hx))
      (by
        have : (c :: cs).length = cs.length + 1 := by simp
        omega)
      (by simpa using hpos)
    obtain ⟨r1, r2, r3, r4⟩ := hrec
    refine ⟨by rw [r1]; simp, ?_, ?_, ?_⟩
    · have : (c :: cs).length = cs.length + 1 := by simp
      omega
    · intro x hx
      have hcx := hsplit x
      have hne : (255 : Nat) = x ↔ False := by
        constructor
        · intro hh
          exact hx hh.symm
        · exact False.elim
      rw [r3 x hx]
      simp only [hne, if_false, add_zero] at hcx
      rw [hcx]
      simp only [List.count_cons]
      by_cases hcxx : c = x
      · simp [hcxx]
        omega
      · simp [hcxx, beq_iff_eq]
    · rw [r4]
      simp

/-- Per-channel count in the channel sequence of `initScanOrder`
(`nM` rounds over `range nS`). -/
theorem chanList_count (nS nM x : Nat) :
    ((List.replicate nM (List.range nS)).flatten).count x =
      nM * (if x < nS then 1 else 0) := by
  induction nM with
  | zero => simp
  | succ m ih =>
    rw [List.replicate_succ, List.flatten_cons, List.count_append, ih]
    have hr : (List.range nS).count x = if x < nS then 1 else 0 := by
      by_cases h : x < nS
      · rw [if_pos h]
        exact List.count_eq_one_of_mem (List.nodup_range nS) (List.mem_range.mpr h)
      · rw [if_neg h]
        exact List.count_eq_zero_of_not_mem (fun hh => h (List.mem_range.mp hh))
    rw [hr]
    ring

theorem chanList_length (nS nM : Nat) :
    ((List.replicate nM (List.range nS)).flatten).length = nM * nS := by
  induction nM with
  | zero => simp
  | succ m ih =>
    rw [List.replicate_succ, List.flatten_cons, List.length_append, ih,
      List.length_range]
    ring

theorem chanList_mem (nS nM : Nat) (c : Nat)
    (hc : c ∈ (List.replicate nM (List.range nS)).flatten) : c < nS := by
  obtain ⟨l, hl, hcl⟩ := List.mem_flatten.mp hc
  rw [List.eq_of_mem_replicate hl] at hcl
  exact List.mem_range.mp hcl


/-- C4: schedule coverage — for every sensorCount >= 1 and
perSensorCount >= 1 (sensor indices are uint8, so sensorCount <= 255
and the product fits the scanOrder array), `initScanOrder` finishes
with error 0, the schedule has length sensorCount * perSensorCount,
every sensor index below sensorCount appears exactly perSensorCount
times, and no slot is left at the sentinel 255. -/
theorem initScanOrder_coverage (nS nM : Nat) (rs : Nat → Nat)
    (h1 : 1 ≤ nS) (h2 : 1 ≤ nM) (h3 : nS ≤ 255) :
    (initScanOrder nS nM rs).2 = 0 ∧
    (initScanOrder nS nM rs).1.length = nS * nM ∧
    (∀ ch, ch < nS → (initScanOrder nS nM rs).1.count ch = nM) ∧
    ¬255 ∈ (initScanOrder nS nM rs).1 := by
  have hvals : ∀ c ∈ (List.replicate nM (List.range nS)).flatten, c ≠ 255 := by
    intro c hc
    have := chanList_mem nS nM c hc
    omega
  have hlen := chanList_length nS nM
  have hcount0 : (List.replicate (nS * nM) 255).count 255 = nS * nM := by
    simp
  have hpos : 0 < (List.replicate (nS * nM) 255).length := by
    simp
    exact ⟨h1, h2⟩
  have spec := insertAll_spec rs ((List.replicate nM (List.range nS)).flatten) 0
    (List.replicate (nS * nM) 255) 0 hvals
    (by rw [hlen, hcount0]; exact Nat.le_of_eq (Nat.mul_comm nM nS)) hpos
  obtain ⟨r1, r2, r3, r4⟩ := spec
  have hzero : (initScanOrder nS nM rs).1.count 255 = 0 := by
    simp only [initScanOrder]
    rw [hlen, hcount0, Nat.mul_comm nM nS] at r2
    omega
  refine ⟨?_, ?_, ?_, ?_⟩
  · simp only [initScanOrder]
    rw [r4]
    split <;> rfl
  · simp only [initScanOrder]
    rw [r1]
    simp
  · intro ch hch
    have hch255 : ch ≠ 255 := by omega
    simp only [initScanOrder]
    rw [r3 ch hch255]
    rw [chanList_count nS nM ch, if_pos hch]
    have hrep : (List.replicate (nS * nM) 255).count ch = 0 :=
      List.count_eq_zero_of_not_mem (fun hmem => hch255 (List.eq_of_mem_replicate hmem))
    rw [hrep]
    omega
  · intro hmem
    have := List.count_pos_iff.mpr hmem
    omega

/-- Witness for C4 at a concrete input: two sensors, three measurements
per sensor, an arbitrary random stream. -/
theorem initScanOrder_coverage_witness :
    ((1 : Nat) ≤ 2 ∧ (1 : Nat) ≤ 3 ∧ (2 : Nat) ≤ 255) ∧
    ((initScanOrder 2 3 (fun i => i * 7)).2 = 0 ∧
     (initScanOrder 2 3 (fun i => i * 7)).1.length = 2 * 3 ∧
     (∀ ch, ch < 2 → (initScanOrder 2 3 (fun i => i * 7)).1.count ch = 3) ∧
     ¬255 ∈ (initScanOrder 2 3 (fun i => i * 7)).1) :=
  ⟨⟨by decide, by decide, by decide⟩,
   initScanOrder_coverage 2 3 (fun i => i * 7) (by decide) (by decide) (by decide)⟩

end ScanOrder

/-!
EEPROM persistence (TouchLib.h lines 568-844).  The byte store is a
`List Nat` of byte values whose length plays the role of
`EEPROM_length()`; `EEPROM_update`/`EEPROM.write` become `List.set`
and `EEPROM.read` becomes `List.getD _ 0`.  A C `float` threshold is
carried as its 32-bit IEEE-754 bit pattern (a `Nat` below `2 ^ 32`),
which is exactly the `uint32_t` view that `writeFloatToEeprom` /
`readFloatFromEeprom` obtain via `memcpy`; the codec never computes
with the float value itself, so the bit-pattern view is lossless.
-/

namespace Eeprom

/-- One iteration of the bit loop of crcUpdate (TouchLib.h:575-584) for
message bit k: bit 15 of the current crc, conditionally flipped by bit k
of the byte, then shift left (uint16 wrap) and conditional xor with the
polynomial 0x1021. -/
def crcStep (c : Nat) (crc : Nat) (k : Nat) : Nat :=
  let bit := crc.testBit 15
  let bit := if c.testBit k then !bit else bit
  let crc := (crc * 2) % 65536
  if bit then crc ^^^ 0x1021 else crc

/-- crcUpdate (TouchLib.h:568-587): the loop mask i runs 0x80,0x40,...,1,
i.e. message bits 7 down to 0; the final crc &= 0xffff. -/
def crcUpdate (crc c : Nat) : Nat :=
  ([7, 6, 5, 4, 3, 2, 1, 0].foldl (fun acc k => crcStep c acc k) crc) % 65536

/-- writeFloatToEeprom (TouchLib.h:643-661): the four bytes of the 32-bit
pattern, most significant first (k = 4,3,2,1), each CRC-hashed and stored. -/
def writeFloatToEeprom (w : Nat) (eep : List Nat) (addr crc : Nat) :
    List Nat × Nat × Nat :=
  let t4 := (w >>> 24) % 256
  let crc := crcUpdate crc t4
  let eep := eep.set addr t4
  let t3 := (w >>> 16) % 256
  let crc := crcUpdate crc t3
  let eep := eep.set (addr + 1) t3
  let t2 := (w >>> 8) % 256
  let crc := crcUpdate crc t2
  let eep := eep.set (addr + 2) t2
  let t1 := w % 256
  let crc := crcUpdate crc t1
  let eep := eep.set (addr + 3) t1
  (eep, addr + 4, crc)

/-- readFloatFromEeprom (TouchLib.h:618-641): four bytes read most
significant first, each CRC-hashed, reassembled into the 32-bit pattern. -/
def readFloatFromEeprom (eep : List Nat) (addr crc : Nat) :
    Nat × Nat × Nat :=
  let t4 := eep.getD addr 0
  let crc := crcUpdate crc t4
  let t3 := eep.getD (addr + 1) 0
  let crc := crcUpdate crc t3
  let t2 := eep.getD (addr + 2) 0
  let crc := crcUpdate crc t2
  let t1 := eep.getD (addr + 3) 0
  let crc := crcUpdate crc t1
  ((((t4 <<< 24) ||| (t3 <<< 16)) ||| (t2 <<< 8)) ||| t1, addr + 4, crc)

/-- The persisted per-sensor fields: the four threshold bit patterns
written/read by writeSensorSettingToEeprom/readSensorSettingFromEeprom,
plus the enableSlewrateLimiter flag set by the read path from the config
byte. -/
structure EepSensor where
  releasedToApproachedThreshold : Nat
  approachedToReleasedThreshold : Nat
  approachedToPressedThreshold : Nat
  pressedToApproachedThreshold : Nat
  enableSlewrateLimiter : Bool
deriving DecidableEq, Repr

/-- The controller state the persistence code touches: the sensor array,
eepromOffset and the error member. -/
structure EepCtrl where
  sensors : List EepSensor
  eepromOffset : Nat
  error : Int
deriving DecidableEq, Repr

/-- eepromSizeRequired (TouchLib.h:710-714):
nSensors * 4 * sizeof(float) + TL_EEPROM_N_BYTES_OVERHEAD, with the
overhead macro defined as (1+1+1+2) at line 416. -/
def eepromSizeRequired (nSensors : Nat) : Nat :=
  nSensors * 4 * 4 + (1 + 1 + 1 + 2)

/-- writeSensorSettingToEeprom (TouchLib.h:689-708): the four thresholds
in order releasedToApproached, approachedToReleased, approachedToPressed,
pressedToApproached. -/
def writeSensorSettingToEeprom (d : EepSensor) (eep : List Nat)
    (addr crc : Nat) : List Nat × Nat × Nat :=
  let r1 := writeFloatToEeprom d.releasedToApproachedThreshold eep addr crc
  let r2 := writeFloatToEeprom d.approachedToReleasedThreshold r1.1 r1.2.1 r1.2.2
  let r3 := writeFloatToEeprom d.approachedToPressedThreshold r2.1 r2.2.1 r2.2.2
  writeFloatToEeprom d.pressedToApproachedThreshold r3.1 r3.2.1 r3.2.2

/-- The for-loop of writeSettingsToEeprom over all sensors
(TouchLib.h:749-751), threading the store, address and crc. -/
def writeSensors : List EepSensor → List Nat → Nat → Nat →
    List Nat × Nat × Nat
  | [], eep, addr, crc => (eep, addr, crc)
  | d :: rest, eep, addr, crc =>
      let r := writeSensorSettingToEeprom d eep addr crc
      writeSensors rest r.1 r.2.1 r.2.2

/-- writeSettingsToEeprom (TouchLib.h:716-757).  Checks: 5-bit sensor
count, store capacity, key-or-blank byte at the offset.  On success it
writes the key 0xC7, the descriptor byte
(TL_EEPROM_FORMAT_VERSION << 5) | ((nSensors-1) & 0x1F), the per-sensor
thresholds and the 16-bit CRC, big-endian.  Note the source writes no
config byte between the descriptor and the sensor data. -/
def writeSettingsToEeprom (c : EepCtrl) (eep : List Nat) :
    EepCtrl × List Nat :=
  let nSensors := c.sensors.length
  let e1 : Int :=
    if (nSensors - 1) &&& 0x1F ≠ nSensors - 1 then -28 else c.error
  let e2 : Int :=
    if c.eepromOffset + eepromSizeRequired nSensors > eep.length then -28
    else e1
  let tmp := eep.getD c.eepromOffset 0
  let e3 : Int := if e2 = 0 ∧ tmp ≠ 0xC7 ∧ tmp ≠ 0xFF then -5 else e2
  if e3 = 0 then
    let eep := eep.set c.eepromOffset 0xC7
    let crc := crcUpdate 0 0xC7
    let desc := (0 <<< 5) ||| (((nSensors - 1) &&& 0x1F) <<< 0)
    let eep := eep.set (c.eepromOffset + 1) desc
    let crc := crcUpdate crc desc
    let r := writeSensors c.sensors eep (c.eepromOffset + 2) crc
    let eep := r.1.set r.2.1 ((r.2.2 >>> 8) % 256)
    let eep := eep.set (r.2.1 + 1) (r.2.2 % 256)
    ({ c with error := e3 }, eep)
  else ({ c with error := e3 }, eep)

/-- readSensorSettingFromEeprom (TouchLib.h:663-687): four float reads;
with applySettings the four thresholds are stored into the record,
otherwise only address and crc advance. -/
def readSensorSettingFromEeprom (eep : List Nat) (d : EepSensor)
    (addr crc : Nat) (applySettings : Bool) : EepSensor × Nat × Nat :=
  let r1 := readFloatFromEeprom eep addr crc
  let r2 := readFloatFromEeprom eep r1.2.1 r1.2.2
  let r3 := readFloatFromEeprom eep r2.2.1 r2.2.2
  let r4 := readFloatFromEeprom eep r3.2.1 r3.2.2
  if applySettings then
    ({ d with
        releasedToApproachedThreshold := r1.1,
        approachedToReleasedThreshold := r2.1,
        approachedToPressedThreshold := r3.1,
        pressedToApproachedThreshold := r4.1 }, r4.2.1, r4.2.2)
  else (d, r4.2.1, r4.2.2)

/-- The for-loops of readSettingsFromEeprom over all sensors
(TouchLib.h:811-813 and 829-831), threading address and crc. -/
def readSensors (eep : List Nat) (applySettings : Bool) :
    List EepSensor → Nat → Nat → List EepSensor × Nat × Nat
  | [], addr, crc => ([], addr, crc)
  | d :: rest, addr, crc =>
      let r := readSensorSettingFromEeprom eep d addr crc applySettings
      let rr := readSensors eep applySettings rest r.2.1 r.2.2
      (r.1 :: rr.1, rr.2.1, rr.2.2)

/-- readSettingsFromEeprom (TouchLib.h:759-844).  Checks: 5-bit sensor
count, store capacity, key byte, format version, stored sensor count,
then a dummy pass recomputing the CRC and a compare against the stored
CRC; only then an applying pass plus the slew-rate flag from bit 0x80 of
the config byte.  Line 796 of the source is `crc = crcUpdate(crc, tmp)`
with tmp still holding the descriptor byte, so the descriptor enters the
running CRC twice and the config byte never does; that is modelled
faithfully below. -/
def readSettingsFromEeprom (c : EepCtrl) (eep : List Nat) : EepCtrl :=
  let nSensors := c.sensors.length
  let e1 : Int :=
    if (nSensors - 1) &&& 0x1F ≠ nSensors - 1 then -28 else c.error
  let e2 : Int :=
    if c.eepromOffset + eepromSizeRequired nSensors > eep.length then -28
    else e1
  let key := eep.getD c.eepromOffset 0
  let crc1 := crcUpdate 0 key
  let e3 : Int := if e2 = 0 ∧ key ≠ 0xC7 then -5 else e2
  if e3 = 0 then
    let desc := eep.getD (c.eepromOffset + 1) 0
    let crc2 := crcUpdate crc1 desc
    let formatVersion := (desc >>> 5) &&& 0x7
    let nSensorsEeprom := ((desc >>> 0) &&& 0x1F) + 1
    let config := eep.getD (c.eepromOffset + 2) 0
    let crc3 := crcUpdate crc2 desc
    let e4 : Int := if formatVersion ≠ 0 then -5 else e3
    let e5 : Int := if nSensorsEeprom ≠ nSensors then -5 else e4
    if e5 = 0 then
      let dummy := readSensors eep false c.sensors (c.eepromOffset + 3) crc3
      let crcEeprom :=
        ((eep.getD dummy.2.1 0) <<< 8) ||| eep.getD (dummy.2.1 + 1) 0
      let e6 : Int := if dummy.2.2 ≠ crcEeprom then -5 else e5
      if e6 = 0 then
        let applied :=
          readSensors eep true c.sensors (c.eepromOffset + 3) dummy.2.2
        let b : Bool := config &&& 0x80 != 0
        { c with
            sensors := applied.1.map
              (fun d => { d with enableSlewrateLimiter := b }),
            error := e6 }
      else { c with error := e6 }
    else { c with error := e5 }
  else { c with error := e3 }

/-- The CRC the read path recomputes during its dummy pass: key byte,
then the descriptor byte twice (the line-796 aliasing), then every
threshold byte; the config byte is never hashed. -/
def readRecomputedCrc (c : EepCtrl) (eep : List Nat) : Nat :=
  let key := eep.getD c.eepromOffset 0
  let desc := eep.getD (c.eepromOffset + 1) 0
  let crc := crcUpdate (crcUpdate (crcUpdate 0 key) desc) desc
  (readSensors eep false c.sensors (c.eepromOffset + 3) crc).2.2

/-- The stored CRC as the read path reassembles it: the two bytes just
past the dummy pass, which ends 16 bytes per sensor after offset + 3. -/
def readStoredCrc (c : EepCtrl) (eep : List Nat) : Nat :=
  ((eep.getD (c.eepromOffset + 3 + 16 * c.sensors.length) 0) <<< 8) |||
    eep.getD (c.eepromOffset + 4 + 16 * c.sensors.length) 0

/-- Big-endian byte split of a 32-bit pattern, as both float codecs
produce and consume it. -/
def wordBytes (w : Nat) : List Nat :=
  [(w >>> 24) % 256, (w >>> 16) % 256, (w >>> 8) % 256, w % 256]

/-- The sixteen threshold bytes of one sensor in write order. -/
def sensorBytes (d : EepSensor) : List Nat :=
  wordBytes d.releasedToApproachedThreshold ++
    wordBytes d.approachedToReleasedThreshold ++
    wordBytes d.approachedToPressedThreshold ++
    wordBytes d.pressedToApproachedThreshold

/-- Modelled from the spec: the claimed record layout
[key:1][descriptor:1][config:1][per sensor: 4 floats of 4 big-endian
bytes][crc16:2], with the CRC computed over every stored byte including
key, descriptor and config but not the CRC bytes themselves, and the
config byte carrying the slew-rate-limiter flag in bit 0x80. -/
def specRecordBytes (c : EepCtrl) : List Nat :=
  let nSensors := c.sensors.length
  let desc := (0 <<< 5) ||| (((nSensors - 1) &&& 0x1F) <<< 0)
  let config : Nat :=
    if (c.sensors.headD ⟨0, 0, 0, 0, false⟩).enableSlewrateLimiter then 0x80
    else 0
  let body := [0xC7, desc, config] ++ (c.sensors.map sensorBytes).flatten
  let crc := body.foldl crcUpdate 0
  body ++ [(crc >>> 8) % 256, crc % 256]

/-- Witness sensor: the C1 thresholds 10.0, 8.0, 75.0, 60.0 as their
IEEE-754 single-precision bit patterns. -/
def wEepThresholds : EepSensor :=
  { releasedToApproachedThreshold := 0x41200000
    approachedToReleasedThreshold := 0x41000000
    approachedToPressedThreshold := 0x42960000
    pressedToApproachedThreshold := 0x42700000
    enableSlewrateLimiter := false }

/-- Witness controller with four sensors holding the C1 thresholds. -/
def wWriteCtrl : EepCtrl :=
  { sensors := List.replicate 4 wEepThresholds, eepromOffset := 0, error := 0 }

/-- Fresh controller with four sensors at prior (zero) threshold patterns. -/
def wFreshCtrl : EepCtrl :=
  { sensors := List.replicate 4 ⟨0, 0, 0, 0, false⟩, eepromOffset := 0,
    error := 0 }

/-- A blank 128-byte store (erased EEPROM reads 0xFF). -/
def wBlankEeprom : List Nat := List.replicate 128 0xFF

/-- The store after writing the four-sensor settings record. -/
def wWrittenEeprom : List Nat := (writeSettingsToEeprom wWriteCtrl wBlankEeprom).2

/-- Single-sensor controller with zeroed prior thresholds. -/
def wGoodCtrl : EepCtrl :=
  { sensors := [⟨0, 0, 0, 0, false⟩], eepromOffset := 0, error := 0 }

/-- A hand-built single-sensor record the read path accepts: key,
descriptor, config 0x80, sixteen zero threshold bytes, and the CRC bytes
0x69 0xA2 matching the CRC the read path actually recomputes. -/
def wGoodEep : List Nat :=
  [0xC7, 0x00, 0x80, 0, 0, 0, 0, 0, 0, 0, 0, 0, 0, 0, 0, 0, 0, 0, 0,
   0x69, 0xA2]

/-- A 21-byte store with no key byte. -/
def wBadKeyEep : List Nat := List.replicate 21 0

/-- Float reads advance the address by four. -/
theorem readFloat_addr (eep : List Nat) (addr crc : Nat) :
    (readFloatFromEeprom eep addr crc).2.1 = addr + 4 := rfl

/-- Sensor reads advance the address by sixteen, applying or not. -/
theorem readSensorSetting_addr (eep : List Nat) (d : EepSensor)
    (addr crc : Nat) (a : Bool) :
    (readSensorSettingFromEeprom eep d addr crc a).2.1 = addr + 16 := by
  cases a <;>
    simp only [readSensorSettingFromEeprom, readFloatFromEeprom,
      if_true, if_false, Bool.false_eq_true] <;> omega

/-- The dummy and applying passes advance the address by sixteen bytes
per sensor. -/
theorem readSensors_addr (eep : List Nat) (a : Bool) :
    ∀ (l : List EepSensor) (addr crc : Nat),
      (readSensors eep a l addr crc).2.1 = addr + 16 * l.length := by
  intro l
  induction l with
  | nil => intro addr crc; simp [readSensors]
  | cons d rest ih =>
      intro addr crc
      simp only [readSensors, List.length_cons]
      rw [ih, readSensorSetting_addr]
      omega

/-- C3: read atomicity.  Whenever readSettingsFromEeprom reports an
error (key, format version, sensor count or CRC check failed), the
sensor records are returned exactly as they were; and whenever it
succeeds, the CRC recomputed during the dummy pass equals the stored
CRC. -/
theorem readSettings_atomicity (c : EepCtrl) (eep : List Nat) :
    ((readSettingsFromEeprom c eep).error ≠ 0 →
      (readSettingsFromEeprom c eep).sensors = c.sensors) ∧
    ((readSettingsFromEeprom c eep).error = 0 →
      readRecomputedCrc c eep = readStoredCrc c eep) := by
  simp only [readSettingsFromEeprom]
  generalize hA : (if c.eepromOffset + eepromSizeRequired c.sensors.length >
      eep.length then (-28 : Int)
    else if c.sensors.length - 1 &&& 31 ≠ c.sensors.length - 1 then -28
    else c.error) = A
  generalize hE3 : (if A = 0 ∧ eep.getD c.eepromOffset 0 ≠ 199 then (-5 : Int)
    else A) = E3
  generalize hE5 : (if (eep.getD (c.eepromOffset + 1) 0 >>> 0 &&& 31) + 1 ≠
      c.sensors.length then (-5 : Int)
    else if eep.getD (c.eepromOffset + 1) 0 >>> 5 &&& 7 ≠ 0 then -5
    else E3) = E5
  generalize hD : readSensors eep false c.sensors (c.eepromOffset + 3)
    (crcUpdate (crcUpdate (crcUpdate 0 (eep.getD c.eepromOffset 0))
      (eep.getD (c.eepromOffset + 1) 0)) (eep.getD (c.eepromOffset + 1) 0)) = D
  generalize hE6 : (if D.2.2 ≠ eep.getD D.2.1 0 <<< 8 |||
      eep.getD (D.2.1 + 1) 0 then (-5 : Int) else E5) = E6
  by_cases h3 : E3 = 0
  · simp only [if_pos h3]
    by_cases h5 : E5 = 0
    · simp only [if_pos h5]
      by_cases h6 : E6 = 0
      · simp only [if_pos h6]
        refine ⟨fun he => absurd h6 he, fun _ => ?_⟩
        rw [← hE6] at h6
        by_cases hm : D.2.2 ≠ eep.getD D.2.1 0 <<< 8 ||| eep.getD (D.2.1 + 1) 0
        · rw [if_pos hm] at h6
          exact absurd h6 (by decide)
        · have hm2 := not_ne_iff.mp hm
          have haddr : D.2.1 = c.eepromOffset + 3 + 16 * c.sensors.length := by
            rw [← hD, readSensors_addr]
          rw [haddr] at hm2
          have h45 : c.eepromOffset + 3 + 16 * c.sensors.length + 1 =
              c.eepromOffset + 4 + 16 * c.sensors.length := by omega
          rw [h45] at hm2
          simp only [readRecomputedCrc, readStoredCrc]
          rw [hD]
          exact hm2
      · simp only [if_neg h6]
        exact ⟨fun _ => by trivial, fun he => absurd he h6⟩
    · simp only [if_neg h5]
      exact ⟨fun _ => by trivial, fun he => absurd he h5⟩
  · simp only [if_neg h3]
    exact ⟨fun _ => by trivial, fun he => absurd he h3⟩

set_option maxRecDepth 16384 in
/-- Witness for C3 at concrete inputs: a keyless 21-byte store is
rejected with the sensors unchanged, and a store the read path accepts
has matching recomputed and stored CRCs. -/
theorem readSettings_atomicity_witness :
    ((readSettingsFromEeprom wGoodCtrl wBadKeyEep).sensors =
      wGoodCtrl.sensors) ∧
    (readRecomputedCrc wGoodCtrl wGoodEep = readStoredCrc wGoodCtrl wGoodEep) :=
  ⟨(readSettings_atomicity wGoodCtrl wBadKeyEep).1 (by decide),
   (readSettings_atomicity wGoodCtrl wGoodEep).2 (by decide)⟩


/-- Folding crcUpdate over a byte stream. -/
def crcFold (crc : Nat) (l : List Nat) : Nat := l.foldl crcUpdate crc

theorem crcFold_append (crc : Nat) (l1 l2 : List Nat) :
    crcFold crc (l1 ++ l2) = crcFold (crcFold crc l1) l2 := by
  simp [crcFold]

theorem writeFloat_crc (w : Nat) (eep : List Nat) (addr crc : Nat) :
    (writeFloatToEeprom w eep addr crc).2.2 = crcFold crc (wordBytes w) := by
  simp [writeFloatToEeprom, wordBytes, crcFold]

theorem writeSensorSetting_crc (d : EepSensor) (eep : List Nat) (addr crc : Nat) :
    (writeSensorSettingToEeprom d eep addr crc).2.2 =
      crcFold crc (sensorBytes d) := by
  simp only [writeSensorSettingToEeprom, writeFloat_crc, sensorBytes,
    crcFold_append]

theorem writeSensors_crc :
    ∀ (l : List EepSensor) (eep : List Nat) (addr crc : Nat),
      (writeSensors l eep addr crc).2.2 =
        crcFold crc ((l.map sensorBytes).flatten) := by
  intro l
  induction l with
  | nil => intro eep addr crc; simp [writeSensors, crcFold]
  | cons d rest ih =>
      intro eep addr crc
      simp only [writeSensors, List.map_cons, List.flatten_cons, crcFold_append]
      rw [ih, writeSensorSetting_crc]

/-- The evaluated 128-byte store after the four-sensor write: key,
descriptor, sixty-four threshold bytes, the two CRC bytes at offsets
66 and 67, and untouched blank bytes from offset 68 on. -/
def wWrittenLit : List Nat := [199, 3, 65, 32, 0, 0, 65, 0, 0, 0, 66, 150, 0, 0, 66, 112, 0, 0, 65, 32, 0, 0, 65, 0, 0, 0, 66, 150, 0, 0, 66, 112, 0, 0, 65, 32, 0, 0, 65, 0, 0, 0, 66, 150, 0, 0, 66, 112, 0, 0, 65, 32, 0, 0, 65, 0, 0, 0, 66, 150, 0, 0, 66, 112, 0, 0, 188, 147, 255, 255, 255, 255, 255, 255, 255, 255, 255, 255, 255, 255, 255, 255, 255, 255, 255, 255, 255, 255, 255, 255, 255, 255, 255, 255, 255, 255, 255, 255, 255, 255, 255, 255, 255, 255, 255, 255, 255, 255, 255, 255, 255, 255, 255, 255, 255, 255, 255, 255, 255, 255, 255, 255, 255, 255, 255, 255, 255, 255]

set_option maxRecDepth 6000 in
theorem wlit_eq : wWrittenEeprom = wWrittenLit := by
  show (writeSettingsToEeprom wWriteCtrl wBlankEeprom).2 = wWrittenLit
  simp only [writeSettingsToEeprom]
  rw [if_pos (show (if (if wWriteCtrl.eepromOffset + eepromSizeRequired wWriteCtrl.sensors.length > wBlankEeprom.length then (-28 : Int) else if wWriteCtrl.sensors.length - 1 &&& 31 ≠ wWriteCtrl.sensors.length - 1 then -28 else wWriteCtrl.error) = 0 ∧ wBlankEeprom.getD wWriteCtrl.eepromOffset 0 ≠ 199 ∧ wBlankEeprom.getD wWriteCtrl.eepromOffset 0 ≠ 255 then (-5 : Int) else (if wWriteCtrl.eepromOffset + eepromSizeRequired wWriteCtrl.sensors.length > wBlankEeprom.length then (-28 : Int) else if wWriteCtrl.sensors.length - 1 &&& 31 ≠ wWriteCtrl.sensors.length - 1 then -28 else wWriteCtrl.error)) = 0 by decide)]
  have haddr : (writeSensors wWriteCtrl.sensors ((wBlankEeprom.set wWriteCtrl.eepromOffset 199).set (wWriteCtrl.eepromOffset + 1) (0 <<< 5 ||| (wWriteCtrl.sensors.length - 1 &&& 31) <<< 0)) (wWriteCtrl.eepromOffset + 2) (crcUpdate (crcUpdate 0 199) (0 <<< 5 ||| (wWriteCtrl.sensors.length - 1 &&& 31) <<< 0))).2.1 = 66 := by decide
  have heep : (writeSensors wWriteCtrl.sensors ((wBlankEeprom.set wWriteCtrl.eepromOffset 199).set (wWriteCtrl.eepromOffset + 1) (0 <<< 5 ||| (wWriteCtrl.sensors.length - 1 &&& 31) <<< 0)) (wWriteCtrl.eepromOffset + 2) (crcUpdate (crcUpdate 0 199) (0 <<< 5 ||| (wWriteCtrl.sensors.length - 1 &&& 31) <<< 0))).1 = [199, 3, 65, 32, 0, 0, 65, 0, 0, 0, 66, 150, 0, 0, 66, 112, 0, 0, 65, 32, 0, 0, 65, 0, 0, 0, 66, 150, 0, 0, 66, 112, 0, 0, 65, 32, 0, 0, 65, 0, 0, 0, 66, 150, 0, 0, 66, 112, 0, 0, 65, 32, 0, 0, 65, 0, 0, 0, 66, 150, 0, 0, 66, 112, 0, 0, 255, 255, 255, 255, 255, 255, 255, 255, 255, 255, 255, 255, 255, 255, 255, 255, 255, 255, 255, 255, 255, 255, 255, 255, 255, 255, 255, 255, 255, 255, 255, 255, 255, 255, 255, 255, 255, 255, 255, 255, 255, 255, 255, 255, 255, 255, 255, 255, 255, 255, 255, 255, 255, 255, 255, 255, 255, 255, 255, 255, 255, 255] := by decide
  have hcrc : (writeSensors wWriteCtrl.sensors ((wBlankEeprom.set wWriteCtrl.eepromOffset 199).set (wWriteCtrl.eepromOffset + 1) (0 <<< 5 ||| (wWriteCtrl.sensors.length - 1 &&& 31) <<< 0)) (wWriteCtrl.eepromOffset + 2) (crcUpdate (crcUpdate 0 199) (0 <<< 5 ||| (wWriteCtrl.sensors.length - 1 &&& 31) <<< 0))).2.2 = 48275 := by
    rw [writeSensors_crc]
    have hb : (wWriteCtrl.sensors.map sensorBytes).flatten = [65, 32, 0, 0, 65, 0, 0, 0, 66, 150, 0, 0, 66, 112, 0, 0, 65, 32, 0, 0, 65, 0, 0, 0, 66, 150, 0, 0, 66, 112, 0, 0, 65, 32, 0, 0, 65, 0, 0, 0, 66, 150, 0, 0, 66, 112, 0, 0, 65, 32, 0, 0, 65, 0, 0, 0, 66, 150, 0, 0, 66, 112, 0, 0] := by decide
    have hc0 : crcUpdate (crcUpdate 0 199)
        (0 <<< 5 ||| (wWriteCtrl.sensors.length - 1 &&& 31) <<< 0) = 49056 := by
      decide
    rw [hb, hc0]
    rw [show ([65, 32, 0, 0, 65, 0, 0, 0, 66, 150, 0, 0, 66, 112, 0, 0, 65, 32, 0, 0, 65, 0, 0, 0, 66, 150, 0, 0, 66, 112, 0, 0, 65, 32, 0, 0, 65, 0, 0, 0, 66, 150, 0, 0, 66, 112, 0, 0, 65, 32, 0, 0, 65, 0, 0, 0, 66, 150, 0, 0, 66, 112, 0, 0] : List Nat) =
      [65, 32, 0, 0, 65, 0, 0, 0, 66, 150, 0, 0, 66, 112, 0, 0] ++ ([65, 32, 0, 0, 65, 0, 0, 0, 66, 150, 0, 0, 66, 112, 0, 0] ++ ([65, 32, 0, 0, 65, 0, 0, 0, 66, 150, 0, 0, 66, 112, 0, 0] ++ [65, 32, 0, 0, 65, 0, 0, 0, 66, 150, 0, 0, 66, 112, 0, 0])) from rfl]
    rw [crcFold_append, crcFold_append, crcFold_append]
    have k1 : crcFold 49056 [65, 32, 0, 0, 65, 0, 0, 0, 66, 150, 0, 0, 66, 112, 0, 0] = 42355 := by decide
    have k2 : crcFold 42355 [65, 32, 0, 0, 65, 0, 0, 0, 66, 150, 0, 0, 66, 112, 0, 0] = 1057 := by decide
    have k3 : crcFold 1057 [65, 32, 0, 0, 65, 0, 0, 0, 66, 150, 0, 0, 66, 112, 0, 0] = 52026 := by decide
    have k4 : crcFold 52026 [65, 32, 0, 0, 65, 0, 0, 0, 66, 150, 0, 0, 66, 112, 0, 0] = 48275 := by decide
    rw [k1, k2, k3, k4]
  rw [haddr, heep, hcrc]
  decide

/-- The four bytes one float read consumes. -/
def floatReadBytes (eep : List Nat) (addr : Nat) : List Nat :=
  [eep.getD addr 0, eep.getD (addr + 1) 0, eep.getD (addr + 2) 0,
   eep.getD (addr + 3) 0]

/-- The sixteen bytes one sensor read consumes. -/
def sensorReadBytes (eep : List Nat) (addr : Nat) : List Nat :=
  floatReadBytes eep addr ++ floatReadBytes eep (addr + 4) ++
    floatReadBytes eep (addr + 8) ++ floatReadBytes eep (addr + 12)

/-- The bytes a whole read pass consumes over a sensor list. -/
def sensorsReadBytes (eep : List Nat) (addr : Nat) : List EepSensor → List Nat
  | [] => []
  | _ :: rest =>
      sensorReadBytes eep addr ++ sensorsReadBytes eep (addr + 16) rest

theorem readFloat_crc (eep : List Nat) (addr crc : Nat) :
    (readFloatFromEeprom eep addr crc).2.2 =
      crcFold crc (floatReadBytes eep addr) := by
  simp [readFloatFromEeprom, floatReadBytes, crcFold]

theorem readSensorSetting_crc (eep : List Nat) (d : EepSensor)
    (addr crc : Nat) (a : Bool) :
    (readSensorSettingFromEeprom eep d addr crc a).2.2 =
      crcFold crc (sensorReadBytes eep addr) := by
  cases a <;>
    simp [readSensorSettingFromEeprom, readFloat_crc, readFloat_addr,
      sensorReadBytes, crcFold_append, Nat.add_assoc]

theorem readSensors_crc (eep : List Nat) (a : Bool) :
    ∀ (l : List EepSensor) (addr crc : Nat),
      (readSensors eep a l addr crc).2.2 =
        crcFold crc (sensorsReadBytes eep addr l) := by
  intro l
  induction l with
  | nil => intro addr crc; simp [readSensors, sensorsReadBytes, crcFold]
  | cons d rest ih =>
      intro addr crc
      simp only [readSensors, sensorsReadBytes, crcFold_append]
      rw [ih, readSensorSetting_crc, readSensorSetting_addr]

theorem readSettings_crc_reject (c : EepCtrl) (eep : List Nat)
    (h5 : (if (eep.getD (c.eepromOffset + 1) 0 >>> 0 &&& 31) + 1 ≠ c.sensors.length then (-5 : Int) else if eep.getD (c.eepromOffset + 1) 0 >>> 5 &&& 7 ≠ 0 then -5 else (if (if c.eepromOffset + eepromSizeRequired c.sensors.length > eep.length then (-28 : Int) else if c.sensors.length - 1 &&& 31 ≠ c.sensors.length - 1 then -28 else c.error) = 0 ∧ eep.getD c.eepromOffset 0 ≠ 199 then (-5 : Int) else (if c.eepromOffset + eepromSizeRequired c.sensors.length > eep.length then (-28 : Int) else if c.sensors.length - 1 &&& 31 ≠ c.sensors.length - 1 then -28 else c.error))) = 0)
    (hcrc : readRecomputedCrc c eep ≠ readStoredCrc c eep) :
    readSettingsFromEeprom c eep = { c with error := -5 } := by
  simp only [readSettingsFromEeprom]
  generalize hA : (if c.eepromOffset + eepromSizeRequired c.sensors.length >
      eep.length then (-28 : Int)
    else if c.sensors.length - 1 &&& 31 ≠ c.sensors.length - 1 then -28
    else c.error) = A
  rw [hA] at h5
  generalize hE3 : (if A = 0 ∧ eep.getD c.eepromOffset 0 ≠ 199 then (-5 : Int)
    else A) = E3
  rw [hE3] at h5
  have hE3z : E3 = 0 := by
    by_cases hns : (eep.getD (c.eepromOffset + 1) 0 >>> 0 &&& 31) + 1 ≠
        c.sensors.length
    · rw [if_pos hns] at h5; exact absurd h5 (by decide)
    · rw [if_neg hns] at h5
      by_cases hfv : eep.getD (c.eepromOffset + 1) 0 >>> 5 &&& 7 ≠ 0
      · rw [if_pos hfv] at h5; exact absurd h5 (by decide)
      · rw [if_neg hfv] at h5; exact h5
  generalize hE5 : (if (eep.getD (c.eepromOffset + 1) 0 >>> 0 &&& 31) + 1 ≠
      c.sensors.length then (-5 : Int)
    else if eep.getD (c.eepromOffset + 1) 0 >>> 5 &&& 7 ≠ 0 then -5
    else E3) = E5
  rw [hE5] at h5
  generalize hD : readSensors eep false c.sensors (c.eepromOffset + 3)
    (crcUpdate (crcUpdate (crcUpdate 0 (eep.getD c.eepromOffset 0))
      (eep.getD (c.eepromOffset + 1) 0)) (eep.getD (c.eepromOffset + 1) 0)) = D
  generalize hE6 : (if D.2.2 ≠ eep.getD D.2.1 0 <<< 8 |||
      eep.getD (D.2.1 + 1) 0 then (-5 : Int) else E5) = E6
  simp only [if_pos hE3z, if_pos h5]
  have hmm : D.2.2 ≠ eep.getD D.2.1 0 <<< 8 ||| eep.getD (D.2.1 + 1) 0 := by
    intro he
    apply hcrc
    have haddr : D.2.1 = c.eepromOffset + 3 + 16 * c.sensors.length := by
      rw [← hD, readSensors_addr]
    rw [haddr] at he
    have h45 : c.eepromOffset + 3 + 16 * c.sensors.length + 1 =
        c.eepromOffset + 4 + 16 * c.sensors.length := by omega
    rw [h45] at he
    simp only [readRecomputedCrc, readStoredCrc]
    rw [hD]
    exact he
  have h6v : E6 = -5 := by rw [← hE6, if_pos hmm]
  rw [h6v]
  rw [if_neg (show ¬(-5 : Int) = 0 by decide)]

set_option maxRecDepth 6000 in
theorem wlit_recomputed : readRecomputedCrc wFreshCtrl wWrittenLit = 48473 := by
  simp only [readRecomputedCrc]
  rw [readSensors_crc]
  have h1 : crcUpdate (crcUpdate (crcUpdate 0
      (wWrittenLit.getD wFreshCtrl.eepromOffset 0))
      (wWrittenLit.getD (wFreshCtrl.eepromOffset + 1) 0))
      (wWrittenLit.getD (wFreshCtrl.eepromOffset + 1) 0) = 50775 := by decide
  have h2 : sensorsReadBytes wWrittenLit (wFreshCtrl.eepromOffset + 3)
      wFreshCtrl.sensors = [32, 0, 0, 65, 0, 0, 0, 66, 150, 0, 0, 66, 112, 0, 0, 65, 32, 0, 0, 65, 0, 0, 0, 66, 150, 0, 0, 66, 112, 0, 0, 65, 32, 0, 0, 65, 0, 0, 0, 66, 150, 0, 0, 66, 112, 0, 0, 65, 32, 0, 0, 65, 0, 0, 0, 66, 150, 0, 0, 66, 112, 0, 0, 188] := by decide
  rw [h1, h2]
  rw [show ([32, 0, 0, 65, 0, 0, 0, 66, 150, 0, 0, 66, 112, 0, 0, 65, 32, 0, 0, 65, 0, 0, 0, 66, 150, 0, 0, 66, 112, 0, 0, 65, 32, 0, 0, 65, 0, 0, 0, 66, 150, 0, 0, 66, 112, 0, 0, 65, 32, 0, 0, 65, 0, 0, 0, 66, 150, 0, 0, 66, 112, 0, 0, 188] : List Nat) =
    [32, 0, 0, 65, 0, 0, 0, 66, 150, 0, 0, 66, 112, 0, 0, 65] ++ ([32, 0, 0, 65, 0, 0, 0, 66, 150, 0, 0, 66, 112, 0, 0, 65] ++ ([32, 0, 0, 65, 0, 0, 0, 66, 150, 0, 0, 66, 112, 0, 0, 65] ++ [32, 0, 0, 65, 0, 0, 0, 66, 150, 0, 0, 66, 112, 0, 0, 188])) from rfl]
  rw [crcFold_append, crcFold_append, crcFold_append]
  have k1 : crcFold 50775 [32, 0, 0, 65, 0, 0, 0, 66, 150, 0, 0, 66, 112, 0, 0, 65] = 38762 := by decide
  have k2 : crcFold 38762 [32, 0, 0, 65, 0, 0, 0, 66, 150, 0, 0, 66, 112, 0, 0, 65] = 20985 := by decide
  have k3 : crcFold 20985 [32, 0, 0, 65, 0, 0, 0, 66, 150, 0, 0, 66, 112, 0, 0, 65] = 60582 := by decide
  have k4 : crcFold 60582 [32, 0, 0, 65, 0, 0, 0, 66, 150, 0, 0, 66, 112, 0, 0, 188] = 48473 := by decide
  rw [k1, k2, k3, k4]

set_option maxRecDepth 6000 in
/-- C1: persistence round-trip fails.  Writing thresholds 10.0, 8.0,
75.0, 60.0 (bit patterns 0x41200000, 0x41000000, 0x42960000, 0x42700000)
for four sensors to a blank 128-byte store succeeds, but reading the
record back into a fresh controller with the same sensor count is
rejected with error -5 because the recomputed CRC differs from the
stored CRC: the write path stores no config byte, while the read path
consumes one (and hashes the descriptor in its place).  The fresh
controller keeps its prior (zero) thresholds, so the written values are
never reproduced. -/
theorem persistence_roundtrip_failure :
    (writeSettingsToEeprom wWriteCtrl wBlankEeprom).1.error = 0 ∧
    (readSettingsFromEeprom wFreshCtrl wWrittenEeprom).error = -5 ∧
    (readSettingsFromEeprom wFreshCtrl wWrittenEeprom).sensors =
      wFreshCtrl.sensors ∧
    (readSettingsFromEeprom wFreshCtrl wWrittenEeprom).sensors ≠
      wWriteCtrl.sensors ∧
    readRecomputedCrc wFreshCtrl wWrittenEeprom ≠
      readStoredCrc wFreshCtrl wWrittenEeprom := by
  have hw : wWrittenEeprom = wWrittenLit := wlit_eq
  have hcrcne : readRecomputedCrc wFreshCtrl wWrittenLit ≠
      readStoredCrc wFreshCtrl wWrittenLit := by
    rw [wlit_recomputed]
    rw [show readStoredCrc wFreshCtrl wWrittenLit = 37887 from by decide]
    decide
  have hrej : readSettingsFromEeprom wFreshCtrl wWrittenLit =
      { wFreshCtrl with error := -5 } :=
    readSettings_crc_reject wFreshCtrl wWrittenLit (by decide) hcrcne
  refine ⟨by decide, ?_, ?_, ?_, ?_⟩
  · rw [hw, hrej]
  · rw [hw, hrej]
  · rw [hw, hrej]; decide
  · rw [hw]; exact hcrcne

set_option maxRecDepth 16384 in
/-- C2: the written record does not follow the claimed layout and the
CRC does not cover the claimed bytes.  Against the spec-modelled layout
(69 bytes for four sensors, config byte at offset 2): the byte the code
writes at offset 2 is 0x41, the first threshold byte; the byte at offset
68, where the layout puts the low CRC byte, is still the blank 0xFF (the
code record is one byte short, ending at offset 67); the written prefix
differs from the spec-modelled record.  On the read path the recomputed
CRC is unchanged when the config byte is altered, so the config byte is
not covered by the CRC there either (the descriptor is hashed twice in
its place). -/
theorem persistence_format_divergence :
    ((specRecordBytes wWriteCtrl).length = eepromSizeRequired 4 ∧
     (specRecordBytes wWriteCtrl).getD 2 0 = 0) ∧
    ((writeSettingsToEeprom wWriteCtrl wBlankEeprom).2.getD 2 0 = 0x41 ∧
     (writeSettingsToEeprom wWriteCtrl wBlankEeprom).2.getD 68 0 = 0xFF ∧
     List.take (eepromSizeRequired 4)
       (writeSettingsToEeprom wWriteCtrl wBlankEeprom).2 ≠
       specRecordBytes wWriteCtrl) ∧
    readRecomputedCrc wGoodCtrl wGoodEep =
      readRecomputedCrc wGoodCtrl (wGoodEep.set 2 0) := by decide

end Eeprom
